import Mathlib

/-!
Verification of the TAS-Assist generate-validate-repair pipeline.

This file gives a shallow embedding of the logic-bearing TypeScript source:

* `lib/aprv` (the APRV orchestration module): `generateWithAPRV`,
  `executeAPRVLoop`, `analyzePlanPhase`, `reflectPhase`, `verifyPhase`,
  `buildUserPrompt`, `buildReflectionPrompt`, `extractJSON`,
  `validateAgainstSchema`, `formatValidationErrors`, `formatUserError`;
* `lib/claude-client.ts`: `isRetryableError`, `executeWithRetry`,
  `formatError`, `getUserFriendlyErrorMessage`;
* `lib/schema-validator.ts`: the Zod `GeneratedPlanSchema` and `validatePlan`.

JSON values are modelled by an inductive `Json` with rational numbers in
place of IEEE doubles (every numeric literal and bound appearing in the
source is exactly representable, and no claim under verification depends
on floating-point rounding).  Wall-clock timestamps and durations carried
in the source's log entries are omitted from the model; the remote model
endpoint is an oracle supplied as a function argument.
-/

namespace TAS

/-- JSON values.  Objects keep their fields in document order; `num`
holds an exact rational in place of a JavaScript double. -/
inductive Json where
  | null : Json
  | bool (b : Bool) : Json
  | num (q : Rat) : Json
  | str (s : String) : Json
  | arr (elems : List Json) : Json
  | obj (fields : List (String × Json)) : Json
deriving Repr

mutual

/-- Structural equality of JSON values. -/
def Json.beq : Json → Json → Bool
  | .null, .null => true
  | .bool a, .bool b => a == b
  | .num a, .num b => a == b
  | .str a, .str b => a == b
  | .arr a, .arr b => Json.beqList a b
  | .obj a, .obj b => Json.beqFields a b
  | _, _ => false

def Json.beqList : List Json → List Json → Bool
  | [], [] => true
  | x :: xs, y :: ys => Json.beq x y && Json.beqList xs ys
  | _, _ => false

def Json.beqFields : List (String × Json) → List (String × Json) → Bool
  | [], [] => true
  | (ka, va) :: fs, (kb, vb) :: gs => ka == kb && Json.beq va vb && Json.beqFields fs gs
  | _, _ => false

end

instance : BEq Json := ⟨Json.beq⟩

/-- Field lookup in an association list, first occurrence wins (the
model's `jsonParse` below never produces duplicate keys, mirroring
`JSON.parse`, which keeps one binding per name). -/
def jlookup (fields : List (String × Json)) (k : String) : Option Json :=
  match fields with
  | [] => none
  | (k₁, v) :: tl => if k₁ = k then some v else jlookup tl k

/-- Property access `j.k` as JavaScript performs it on a parsed JSON
value: an object yields the field or `undefined` (here `none`); any
other value yields `undefined`. -/
def Json.get : Json → String → Option Json
  | .obj fields, k => jlookup fields k
  | _, _ => none

/-- Optional chaining `j?.k`. -/
def jget (j : Option Json) (k : String) : Option Json :=
  match j with
  | none => none
  | some v => v.get k

/-- JavaScript truthiness of a JSON value. -/
def Json.truthy : Json → Bool
  | .null => false
  | .bool b => b
  | .num q => q ≠ 0
  | .str s => s ≠ ""
  | .arr _ => true
  | .obj _ => true

/-- Truthiness of a possibly-absent value (`undefined` is falsy). -/
def jtruthy (j : Option Json) : Bool :=
  match j with
  | none => false
  | some v => v.truthy

/-- Lexicographic comparison of character lists by code point. -/
def strLeB : List Char → List Char → Bool
  | [], _ => true
  | _ :: _, [] => false
  | a :: as, b :: bs =>
      if a.toNat < b.toNat then true
      else if b.toNat < a.toNat then false
      else strLeB as bs

/-- Ordering of object fields by key, used for the canonical form. -/
def fieldLe (a b : String × Json) : Prop := strLeB a.1.data b.1.data = true

instance : DecidableRel fieldLe := fun a b =>
  inferInstanceAs (Decidable (strLeB a.1.data b.1.data = true))

instance : IsTotal (String × Json) fieldLe := by
  constructor
  intro a b
  show strLeB a.1.data b.1.data = true ∨ strLeB b.1.data a.1.data = true
  generalize a.1.data = l₁
  generalize b.1.data = l₂
  induction l₁ generalizing l₂ with
  | nil => exact Or.inl rfl
  | cons x xs ih =>
      cases l₂ with
      | nil => exact Or.inr rfl
      | cons y ys =>
          rcases Nat.lt_trichotomy x.toNat y.toNat with h | h | h
          · left; simp [strLeB, h]
          · rcases ih ys with h' | h'
            · left; simp [strLeB, h, h']
            · right; simp [strLeB, h.symm, h']
          · right; simp [strLeB, h]

instance : IsTrans (String × Json) fieldLe := by
  constructor
  intro a b c h₁ h₂
  show strLeB a.1.data c.1.data = true
  replace h₁ : strLeB a.1.data b.1.data = true := h₁
  replace h₂ : strLeB b.1.data c.1.data = true := h₂
  generalize hga : a.1.data = l₁ at h₁ ⊢
  generalize hgb : b.1.data = l₂ at h₁ h₂
  generalize hgc : c.1.data = l₃ at h₂ ⊢
  clear hga hgb hgc
  induction l₁ generalizing l₂ l₃ with
  | nil => rfl
  | cons x xs ih =>
      cases l₂ with
      | nil => simp [strLeB] at h₁
      | cons y ys =>
          cases l₃ with
          | nil => simp [strLeB] at h₂
          | cons z zs =>
              by_cases hxy : x.toNat < y.toNat <;> by_cases hyz : y.toNat < z.toNat
              · simp [strLeB, show x.toNat < z.toNat from by omega]
              · by_cases hzy : z.toNat < y.toNat
                · simp [strLeB, hyz, hzy] at h₂
                · have : y.toNat = z.toNat := by omega
                  simp [strLeB, show x.toNat < z.toNat from by omega]
              · by_cases hyx : y.toNat < x.toNat
                · simp [strLeB, hxy, hyx] at h₁
                · have : x.toNat = y.toNat := by omega
                  simp [strLeB, show x.toNat < z.toNat from by omega]
              · by_cases hyx : y.toNat < x.toNat
                · simp [strLeB, hxy, hyx] at h₁
                · by_cases hzy : z.toNat < y.toNat
                  · simp [strLeB, hyz, hzy] at h₂
                  · have hxz : ¬ x.toNat < z.toNat := by omega
                    have hzx : ¬ z.toNat < x.toNat := by omega
                    simp only [strLeB, if_neg hxy, if_neg hyx] at h₁
                    simp only [strLeB, if_neg hyz, if_neg hzy] at h₂
                    simp only [strLeB, if_neg hxz, if_neg hzx]
                    exact ih ys h₁ zs h₂

mutual

/-- Canonical form of a JSON value: object fields sorted by key at every
level.  Two values denote the same JavaScript object graph ("no fields
added, removed, or changed") exactly when their canonical forms are
equal, since field order is the only representation freedom. -/
def Json.canon : Json → Json
  | .null => .null
  | .bool b => .bool b
  | .num q => .num q
  | .str s => .str s
  | .arr es => .arr (Json.canonList es)
  | .obj fs => .obj (List.insertionSort fieldLe (Json.canonFields fs))

def Json.canonList : List Json → List Json
  | [] => []
  | x :: xs => Json.canon x :: Json.canonList xs

def Json.canonFields : List (String × Json) → List (String × Json)
  | [] => []
  | (k, v) :: tl => (k, Json.canon v) :: Json.canonFields tl

end

/-- Semantic equality of JSON values (field order immaterial). -/
def Json.equiv (a b : Json) : Bool := Json.beq a.canon b.canon

/-! ## `JSON.parse` — a model of the ECMA-404 text grammar

`extractJSON` in `lib/aprv` and the structural-failure behaviour claimed
for it rest on `JSON.parse`.  The model below parses the full JSON
grammar (numbers as exact rationals); duplicate object keys keep the
last value at the first occurrence's position, as in JavaScript. -/

/-- The whitespace accepted between JSON tokens. -/
def isJsonWs (c : Char) : Bool := c = ' ' || c = '\t' || c = '\n' || c = '\r'

/-- Whitespace of the JavaScript regexp class `\s` (the ASCII part). -/
def isJsWs (c : Char) : Bool :=
  c = ' ' || c = '\t' || c = '\n' || c = '\r' || c = '\x0b' || c = '\x0c'

/-- Insert a key into an association list: an existing binding keeps its
position and takes the new value, a new key is appended. -/
def insertReplace (fields : List (String × Json)) (k : String) (v : Json) :
    List (String × Json) :=
  match fields with
  | [] => [(k, v)]
  | (k₁, v₁) :: tl =>
      if k₁ = k then (k, v) :: tl else (k₁, v₁) :: insertReplace tl k v

def hexVal (c : Char) : Option Nat :=
  if '0' ≤ c ∧ c ≤ '9' then some (c.toNat - '0'.toNat)
  else if 'a' ≤ c ∧ c ≤ 'f' then some (c.toNat - 'a'.toNat + 10)
  else if 'A' ≤ c ∧ c ≤ 'F' then some (c.toNat - 'A'.toNat + 10)
  else none

/-- Body of a JSON string literal, after the opening quote. -/
def parseJStr : Nat → List Char → List Char → Option (String × List Char)
  | 0, _, _ => none
  | _ + 1, acc, '"' :: rest => some (String.mk acc.reverse, rest)
  | fuel + 1, acc, '\\' :: e :: rest =>
      match e with
      | '"' => parseJStr fuel ('"' :: acc) rest
      | '\\' => parseJStr fuel ('\\' :: acc) rest
      | '/' => parseJStr fuel ('/' :: acc) rest
      | 'b' => parseJStr fuel ('\x08' :: acc) rest
      | 'f' => parseJStr fuel ('\x0c' :: acc) rest
      | 'n' => parseJStr fuel ('\n' :: acc) rest
      | 'r' => parseJStr fuel ('\r' :: acc) rest
      | 't' => parseJStr fuel ('\t' :: acc) rest
      | 'u' =>
          match rest with
          | h₁ :: h₂ :: h₃ :: h₄ :: rest₁ =>
              match hexVal h₁, hexVal h₂, hexVal h₃, hexVal h₄ with
              | some a, some b, some c, some d =>
                  let n := ((a * 16 + b) * 16 + c) * 16 + d
                  if h : n.isValidChar then parseJStr fuel (Char.ofNatAux n h :: acc) rest₁
                  else none
              | _, _, _, _ => none
          | _ => none
      | _ => none
  | fuel + 1, acc, c :: rest =>
      if c.toNat < 32 then none else parseJStr fuel (c :: acc) rest
  | _, _, [] => none

def isDigit (c : Char) : Bool := '0' ≤ c && c ≤ '9'

def takeDigits (cs : List Char) : List Char × List Char :=
  (cs.takeWhile isDigit, cs.dropWhile isDigit)

def digitsToNat (ds : List Char) : Nat :=
  ds.foldl (fun n c => n * 10 + (c.toNat - '0'.toNat)) 0

/-- A JSON number literal, as an exact rational. -/
def parseJNum (cs : List Char) : Option (Rat × List Char) :=
  let (neg, cs₁) := match cs with
    | '-' :: tl => (true, tl)
    | _ => (false, cs)
  let (ip, cs₂) := takeDigits cs₁
  if ip = [] then none
  else if 2 ≤ ip.length ∧ ip.headD '0' = '0' then none
  else
    let (fd, cs₃) := match cs₂ with
      | '.' :: tl => takeDigits tl
      | _ => ([], cs₂)
    if cs₂ ≠ [] ∧ cs₂.headD ' ' = '.' ∧ fd = [] then none
    else
      let (expOk, eneg, ed, cs₄) : Bool × Bool × List Char × List Char := match cs₃ with
        | 'e' :: '+' :: tl => let (d, r) := takeDigits tl; (!d.isEmpty, false, d, r)
        | 'e' :: '-' :: tl => let (d, r) := takeDigits tl; (!d.isEmpty, true, d, r)
        | 'e' :: tl => let (d, r) := takeDigits tl; (!d.isEmpty, false, d, r)
        | 'E' :: '+' :: tl => let (d, r) := takeDigits tl; (!d.isEmpty, false, d, r)
        | 'E' :: '-' :: tl => let (d, r) := takeDigits tl; (!d.isEmpty, true, d, r)
        | 'E' :: tl => let (d, r) := takeDigits tl; (!d.isEmpty, false, d, r)
        | _ => (true, false, [], cs₃)
      if !expOk then none
      else
        let m : Nat := digitsToNat (ip ++ fd)
        let e : Nat := digitsToNat ed
        let scaled : Rat :=
          if eneg then mkRat (Int.ofNat m) (10 ^ (fd.length + e))
          else mkRat (Int.ofNat (m * 10 ^ e)) (10 ^ fd.length)
        some (if neg then -scaled else scaled, cs₄)

mutual

/-- A JSON value at the head of the input (leading whitespace already
consumed). -/
def parseVal : Nat → List Char → Option (Json × List Char)
  | 0, _ => none
  | _ + 1, 'n' :: 'u' :: 'l' :: 'l' :: rest => some (.null, rest)
  | _ + 1, 't' :: 'r' :: 'u' :: 'e' :: rest => some (.bool true, rest)
  | _ + 1, 'f' :: 'a' :: 'l' :: 's' :: 'e' :: rest => some (.bool false, rest)
  | fuel + 1, '"' :: rest =>
      match parseJStr fuel [] rest with
      | some (s, rest₁) => some (.str s, rest₁)
      | none => none
  | fuel + 1, '[' :: rest =>
      match (rest.dropWhile isJsonWs) with
      | ']' :: rest₁ => some (.arr [], rest₁)
      | rest₁ =>
          match parseElems fuel rest₁ with
          | some (es, rest₂) => some (.arr es, rest₂)
          | none => none
  | fuel + 1, '{' :: rest =>
      match (rest.dropWhile isJsonWs) with
      | '}' :: rest₁ => some (.obj [], rest₁)
      | rest₁ =>
          match parseMembers fuel [] rest₁ with
          | some (fs, rest₂) => some (.obj fs, rest₂)
          | none => none
  | _ + 1, cs =>
      match parseJNum cs with
      | some (q, rest) => some (.num q, rest)
      | none => none

/-- Array elements from the first element on, consuming the closing
bracket. -/
def parseElems : Nat → List Char → Option (List Json × List Char)
  | 0, _ => none
  | fuel + 1, cs =>
      match parseVal fuel cs with
      | none => none
      | some (v, rest) =>
          match rest.dropWhile isJsonWs with
          | ',' :: rest₁ =>
              match parseElems fuel (rest₁.dropWhile isJsonWs) with
              | some (es, rest₂) => some (v :: es, rest₂)
              | none => none
          | ']' :: rest₁ => some ([v], rest₁)
          | _ => none

/-- Object members from the first member on, consuming the closing
brace. -/
def parseMembers : Nat → List (String × Json) → List Char →
    Option (List (String × Json) × List Char)
  | 0, _, _ => none
  | fuel + 1, acc, cs =>
      match cs with
      | '"' :: rest =>
          match parseJStr fuel [] rest with
          | none => none
          | some (k, rest₁) =>
              match rest₁.dropWhile isJsonWs with
              | ':' :: rest₂ =>
                  match parseVal fuel (rest₂.dropWhile isJsonWs) with
                  | none => none
                  | some (v, rest₃) =>
                      let acc₁ := insertReplace acc k v
                      match rest₃.dropWhile isJsonWs with
                      | ',' :: rest₄ => parseMembers fuel acc₁ (rest₄.dropWhile isJsonWs)
                      | '}' :: rest₄ => some (acc₁, rest₄)
                      | _ => none
              | _ => none
      | _ => none

end

/-- `JSON.parse`: the whole text is one JSON value surrounded only by
whitespace; anything else is a parse failure (an exception in
JavaScript, `none` here). -/
def jsonParse (text : String) : Option Json :=
  let cs := text.data.dropWhile isJsonWs
  match parseVal (text.data.length + 1) cs with
  | some (v, rest) => if rest.dropWhile isJsonWs = [] then some v else none
  | none => none

/-! ## `JSON.stringify(value, null, 2)`

Needed by `buildReflectionPrompt`.  Number rendering is the exact
decimal expansion when the denominator divides a power of ten, which
covers every numeric value the claims evaluate. -/

def escChar (c : Char) : String :=
  if c = '"' then "\\\""
  else if c = '\\' then "\\\\"
  else if c = '\n' then "\\n"
  else if c = '\r' then "\\r"
  else if c = '\t' then "\\t"
  else if c = '\x08' then "\\b"
  else if c = '\x0c' then "\\f"
  else if c.toNat < 32 then
    "\\u00" ++ String.mk [("0123456789abcdef".data.getD (c.toNat / 16) '0'),
                          ("0123456789abcdef".data.getD (c.toNat % 16) '0')]
  else String.mk [c]

def jsonQuote (s : String) : String :=
  "\"" ++ String.join (s.data.map escChar) ++ "\""

/-- Smallest power of ten (up to 50) the denominator divides into. -/
def decExp (d : Nat) : Option Nat :=
  (List.range 51).foldr
    (fun k acc => if 10 ^ k % d = 0 then some k else acc) none

def padZeros (s : String) (w : Nat) : String :=
  String.mk (List.replicate (w - s.length) '0') ++ s

def ratToDecimalString (q : Rat) : String :=
  let sign := if q < 0 then "-" else ""
  let n := q.num.natAbs
  let d := q.den
  if d = 1 then sign ++ toString n
  else
    match decExp d with
    | some k =>
        let scaled := n * (10 ^ k / d)
        let ip := scaled / 10 ^ k
        let fp := scaled % 10 ^ k
        sign ++ toString ip ++ "." ++ padZeros (toString fp) k
    | none => sign ++ toString n ++ "/" ++ toString d

def spaces (n : Nat) : String := String.mk (List.replicate n ' ')

mutual

/-- `JSON.stringify(v, null, 2)` at indentation level `ind` (the column
of the enclosing container's members). -/
def Json.stringify2 : Json → Nat → String
  | .null, _ => "null"
  | .bool b, _ => if b then "true" else "false"
  | .num q, _ => ratToDecimalString q
  | .str s, _ => jsonQuote s
  | .arr [], _ => "[]"
  | .arr (e :: es), ind =>
      "[\n" ++ Json.stringifyItems (e :: es) (ind + 2) ++ "\n" ++ spaces ind ++ "]"
  | .obj [], _ => "\x7b\x7d"
  | .obj (f :: fs), ind =>
      "\x7b\n" ++ Json.stringifyFields (f :: fs) (ind + 2) ++ "\n" ++ spaces ind ++ "\x7d"

def Json.stringifyItems : List Json → Nat → String
  | [], _ => ""
  | [e], ind => spaces ind ++ Json.stringify2 e ind
  | e :: e₁ :: es, ind =>
      spaces ind ++ Json.stringify2 e ind ++ ",\n" ++ Json.stringifyItems (e₁ :: es) ind

def Json.stringifyFields : List (String × Json) → Nat → String
  | [], _ => ""
  | [(k, v)], ind => spaces ind ++ jsonQuote k ++ ": " ++ Json.stringify2 v ind
  | (k, v) :: f :: fs, ind =>
      spaces ind ++ jsonQuote k ++ ": " ++ Json.stringify2 v ind ++ ",\n" ++
        Json.stringifyFields (f :: fs) ind

end

/-! ## `extractJSON` — `lib/aprv`

```
function extractJSON(text) {
  try { return JSON.parse(text); } catch {
    const jsonMatch = text.match(/```(?:json)?\s*(\{[\s\S]*\})\s*```/);
    if (jsonMatch) { try { return JSON.parse(jsonMatch[1]); } catch { return null; } }
    const objectMatch = text.match(/\{[\s\S]*\}/);
    if (objectMatch) { try { return JSON.parse(objectMatch[0]); } catch { return null; } }
    return null;
  }
}
```

The two regular expressions are modelled by direct scanners with the
engine's leftmost-then-greedy semantics: the star `[\s\S]*` is greedy,
so the span runs from the first `\x7b` to the *last* `\x7d` compatible
with the rest of the pattern. -/

def dropJsWs (cs : List Char) : List Char := cs.dropWhile (fun c => isJsWs c)

/-- Greedy choice of the closing brace for `(\{[\s\S]*\})\s*`​`: the
largest index holding a `\x7d` that is followed by whitespace and a
fence. -/
def pickClose (l : List Char) : Option Nat :=
  (List.range l.length).foldl
    (fun acc k =>
      if l.getD k ' ' = '}' ∧ ("```".data).isPrefixOf (dropJsWs (l.drop (k + 1)))
      then some k else acc)
    none

/-- The fenced-block pattern anchored at the start of `cs`, returning
the capture group. -/
def cbAt (cs : List Char) : Option (List Char) :=
  if ("```".data).isPrefixOf cs then
    let cs₁ := cs.drop 3
    let cs₂ := if ("json".data).isPrefixOf cs₁ then cs₁.drop 4 else cs₁
    let cs₃ := dropJsWs cs₂
    match cs₃ with
    | '{' :: _ => (pickClose cs₃).map (fun k => cs₃.take (k + 1))
    | _ => none
  else none

/-- Leftmost match of the fenced-block pattern. -/
def cbScan : Nat → List Char → Option (List Char)
  | 0, _ => none
  | _ + 1, [] => none
  | fuel + 1, c :: tl =>
      match cbAt (c :: tl) with
      | some cap => some cap
      | none => cbScan fuel tl

/-- The pattern `\{[\s\S]*\}` with leftmost-greedy semantics: from the
first `\x7b` to the last `\x7d`. -/
def objectSpan (cs : List Char) : Option (List Char) :=
  match cs.findIdx? (fun c => c = '{') with
  | none => none
  | some i =>
      match cs.reverse.findIdx? (fun c => c = '}') with
      | none => none
      | some r =>
          let k := cs.length - 1 - r
          if i < k then some ((cs.drop i).take (k + 1 - i)) else none

def extractJSON (text : String) : Option Json :=
  match jsonParse text with
  | some v => some v
  | none =>
      match cbScan text.data.length text.data with
      | some cap => jsonParse (String.mk cap)
      | none =>
          match objectSpan text.data with
          | some cap => jsonParse (String.mk cap)
          | none => none

/-- Walk of a brace-balanced span: `depth` open braces outstanding. -/
def balWalk : Nat → Nat → List Char → List Char → Option (List Char)
  | 0, _, _, _ => none
  | _ + 1, _, _, [] => none
  | fuel + 1, depth, acc, c :: rest =>
      if c = '}' then
        if depth = 1 then some (c :: acc).reverse
        else balWalk fuel (depth - 1) (c :: acc) rest
      else if c = '{' then balWalk fuel (depth + 1) (c :: acc) rest
      else balWalk fuel depth (c :: acc) rest

/-- Modelled from the spec: "extraction scans for the first balanced
`\x7b...\x7d` span and attempts to parse it; returns null (not an
exception) when nothing parses".  This is the extraction mechanism the
spec describes; the source's `extractJSON` above is compared against
it. -/
def extractFirstBalanced (text : String) : Option Json :=
  match text.data.findIdx? (fun c => c = '{') with
  | none => none
  | some i =>
      let tl := text.data.drop i
      match balWalk tl.length 1 ['{'] (tl.drop 1) with
      | some span => jsonParse (String.mk span)
      | none => none

/-! ## `lib/claude-client.ts` — retry wrapper and error translation

Errors raised by an operation are either an `Anthropic.APIError`
carrying an optional HTTP status and a message, or some other thrown
`Error`.  The backoff delay durations (`calculateBackoff`, randomised
jitter) never influence control flow, so the model records only how
many sleeps occur. -/

inductive JsError where
  | api (status : Option Nat) (message : String) : JsError
  | other (message : String) : JsError
deriving Repr, DecidableEq

structure RetryConfig where
  maxRetries : Nat
  initialDelay : Nat
  maxDelay : Nat
  backoffMultiplier : Nat
deriving Repr, DecidableEq

def DEFAULT_RETRY_CONFIG : RetryConfig :=
  { maxRetries := 3, initialDelay := 1000, maxDelay := 10000, backoffMultiplier := 2 }

structure ClaudeAPIError where
  message : String
  statusCode : Option Nat
deriving Repr, DecidableEq

/-- `isRetryableError`: an `Anthropic.APIError` with status 429, 408,
503, 504 or any 5xx.  An `APIError` without a status fails every
comparison (JavaScript `undefined` compares false), and a non-API error
is never retryable. -/
def isRetryableError : JsError → Bool
  | .api (some s) _ =>
      s == 429 || s == 408 || s == 503 || s == 504 || (500 ≤ s && s < 600)
  | .api none _ => false
  | .other _ => false

/-- `getUserFriendlyErrorMessage`: the switch on `error.status`; the
default branch keeps the provider message when it is non-empty. -/
def getUserFriendlyErrorMessage (status : Option Nat) (message : String) : String :=
  match status with
  | some s =>
      if s = 401 then
        "Invalid API key. Please check your ANTHROPIC_API_KEY environment variable."
      else if s = 403 then
        "Access forbidden. Your API key may not have the required permissions."
      else if s = 429 then
        "Rate limit exceeded. Please try again in a moment."
      else if s = 500 ∨ s = 502 ∨ s = 503 ∨ s = 504 then
        "Anthropic service is temporarily unavailable. Please try again later."
      else if message ≠ "" then message
      else "An error occurred while communicating with Claude API."
  | none =>
      if message ≠ "" then message
      else "An error occurred while communicating with Claude API."

/-- `formatError`: an `APIError` is wrapped with the user-friendly
message and its status; any other `Error` keeps its own message. -/
def formatError : JsError → ClaudeAPIError
  | .api st m => { message := getUserFriendlyErrorMessage st m, statusCode := st }
  | .other m => { message := m, statusCode := none }

/-- The outcome of `executeWithRetry` together with the number of times
the operation was invoked and the number of backoff sleeps performed. -/
structure RetryOutcome (α : Type) where
  result : Except ClaudeAPIError α
  invocations : Nat
  sleeps : Nat

/-- The `for` loop of `executeWithRetry`.  The operation is an oracle
indexed by the attempt number; `fuel` counts the iterations left
(`maxRetries + 1 - attempt`). -/
def executeWithRetryAux (cfg : RetryConfig) (op : Nat → Except JsError α) :
    Nat → Nat → Option JsError → Nat → Nat → RetryOutcome α
  | 0, _, lastError, inv, slp =>
      { result := .error (match lastError with
          | some e => formatError e
          | none => { message := "An unknown error occurred", statusCode := none }),
        invocations := inv, sleeps := slp }
  | fuel + 1, attempt, _, inv, slp =>
      match op attempt with
      | .ok a => { result := .ok a, invocations := inv + 1, sleeps := slp }
      | .error e =>
          if !isRetryableError e then
            { result := .error (formatError e), invocations := inv + 1, sleeps := slp }
          else if attempt < cfg.maxRetries then
            executeWithRetryAux cfg op fuel (attempt + 1) (some e) (inv + 1) (slp + 1)
          else
            executeWithRetryAux cfg op fuel (attempt + 1) (some e) (inv + 1) slp

/-- `executeWithRetry` with the client's retry configuration. -/
def executeWithRetry (cfg : RetryConfig) (op : Nat → Except JsError α) : RetryOutcome α :=
  executeWithRetryAux cfg op (cfg.maxRetries + 1) 0 none 0 0

/-! ## `lib/aprv` — the APRV orchestration module

The remote Claude endpoint is an oracle supplied in the environment,
indexed by the orchestrator's attempt number and given the prompt that
the source would send; it answers with the response text or with the
message of a thrown error.  Log entries keep phase, status and detail;
the source's timestamps and millisecond durations are dropped, and the
detail strings that interpolate a duration are modelled without it. -/

/-- A contiguous-substring test on character lists. -/
def listInfix (needle : List Char) : List Char → Bool
  | [] => needle.isEmpty
  | c :: tl => needle.isPrefixOf (c :: tl) || listInfix needle tl

/-- `String.prototype.includes`. -/
def jsIncludes (hay needle : String) : Bool := listInfix needle.data hay.data

structure VIssue where
  path : String
  message : String
deriving Repr, DecidableEq

structure VResult where
  valid : Bool
  errors : List VIssue
deriving Repr, DecidableEq

def Json.hasKey : Json → String → Bool
  | .obj fields, k => fields.any (fun f => f.1 = k)
  | _, _ => false

def Json.isObj : Json → Bool
  | .obj _ => true
  | _ => false

/-- Is the value a non-empty array (`Array.isArray(x) && x.length > 0`)? -/
def isNonEmptyArr (j : Option Json) : Bool :=
  match j with
  | some (.arr (_ :: _)) => true
  | _ => false

/-- `validateAgainstSchema(plan, schema)`.  The `schema` argument is the
JSON schema loaded from `prompts/schema.json` (a file outside the
sources); only its `required` list is consulted, so the model takes that
list directly.  When the list is non-empty and the plan is not an
object, the `in` operator throws and the surrounding catch converts the
exception into a single root-path error. -/
def validateAgainstSchema (plan : Json) (required : List String) : VResult :=
  if required ≠ [] ∧ ¬ plan.isObj then
    { valid := false,
      errors := [{ path := "root",
                   message := "Validation error: Cannot use \x27in\x27 operator" }] }
  else
    let reqErrs := required.filterMap (fun f =>
      if plan.hasKey f then none
      else some { path := f, message := "Required field \x27" ++ f ++ "\x27 is missing" })
    let metadataErrs :=
      if jtruthy (plan.get "metadata") then
        (if ¬ jtruthy (jget (plan.get "metadata") "schema_version") then
          [{ path := "metadata.schema_version", message := "Missing schema version" }] else []) ++
        (if ¬ jtruthy (jget (plan.get "metadata") "project_type") then
          [{ path := "metadata.project_type", message := "Missing project type" }] else []) ++
        (if ¬ jtruthy (jget (plan.get "metadata") "generated_at") then
          [{ path := "metadata.generated_at", message := "Missing generated_at timestamp" }] else [])
      else []
    let metaErrs :=
      if jtruthy (plan.get "meta") then
        (if ¬ jtruthy (jget (jget (plan.get "meta") "qualification") "title") then
          [{ path := "meta.qualification.title", message := "Missing qualification title" }] else []) ++
        (if ¬ jtruthy (jget (jget (plan.get "meta") "duration") "weeks") then
          [{ path := "meta.duration.weeks", message := "Missing duration weeks" }] else []) ++
        (if ¬ jtruthy (jget (jget (plan.get "meta") "duration") "total_hours") then
          [{ path := "meta.duration.total_hours", message := "Missing total hours" }] else []) ++
        (if ¬ jtruthy (jget (plan.get "meta") "delivery_mode") then
          [{ path := "meta.delivery_mode", message := "Missing delivery mode" }] else []) ++
        (if ¬ jtruthy (jget (plan.get "meta") "cohort_profile") then
          [{ path := "meta.cohort_profile", message := "Missing cohort profile" }] else [])
      else []
    let weeklyErrs :=
      if ¬ isNonEmptyArr (plan.get "weekly_plan") then
        [{ path := "weekly_plan", message := "Weekly plan must be a non-empty array" }]
      else []
    let unitErrs :=
      if ¬ isNonEmptyArr (plan.get "units") then
        [{ path := "units", message := "Units must be a non-empty array" }]
      else []
    let confErrs :=
      match plan.get "confidence_score" with
      | some (.num q) =>
          if q < 0 ∨ q > 1 then
            [{ path := "confidence_score",
               message := "Confidence score must be a number between 0 and 1" }]
          else []
      | _ => [{ path := "confidence_score",
                message := "Confidence score must be a number between 0 and 1" }]
    let errors := reqErrs ++ metadataErrs ++ metaErrs ++ weeklyErrs ++ unitErrs ++ confErrs
    { valid := errors.isEmpty, errors := errors }

/-- `formatValidationErrors`: at most the first five errors, rendered
`path: message` and joined with semicolons. -/
def formatValidationErrors (errors : List VIssue) : String :=
  if errors.isEmpty then "No errors"
  else String.intercalate "; " ((errors.take 5).map (fun e => e.path ++ ": " ++ e.message))

/-- `formatUserError`: rewrites technical messages into user-facing
text; an empty message (falsy in JavaScript) gets the fallback. -/
def formatUserError (message : String) : String :=
  if message ≠ "" then
    if jsIncludes message "API" then
      "Failed to communicate with AI service. Please check your API key and try again."
    else if jsIncludes message "JSON" then
      "The AI generated an invalid response format. Please try again."
    else if jsIncludes message "Schema" then
      "The generated plan did not meet quality standards. Please try again with more specific requirements."
    else message
  else "An unexpected error occurred. Please try again."

/-! ### `IntakeFormData` and the prompt builders

`duration.weeks` and `duration.total_hours` are `number`s populated
from whole-number form fields; they are modelled as naturals and the
one derived quantity (hours per week) is computed exactly and rendered
with one decimal as `toFixed(1)` does for such values. -/

structure Qualification where
  title : String
  code : Option String
  level : Option String
deriving Repr, DecidableEq

structure Duration where
  weeks : Nat
  total_hours : Nat
deriving Repr, DecidableEq

inductive DeliveryMode where
  | face_to_face | online | blended | workplace | mixed
deriving Repr, DecidableEq

structure IntakeResources where
  facilities : Option (List String)
  equipment : Option (List String)
  materials : Option (List String)
  technology : Option (List String)
deriving Repr, DecidableEq

structure TrainerDetails where
  primary_trainer : Option String
  additional_trainers : Option (List String)
deriving Repr, DecidableEq

structure ClassSize where
  min : Option Nat
  max : Option Nat
  target : Option Nat
deriving Repr, DecidableEq

structure IntakeFormData where
  qualification : Qualification
  duration : Duration
  delivery_mode : DeliveryMode
  cohort_profile : String
  resources : Option IntakeResources
  assessment_preferences : Option (List String)
  unit_list : Option String
  trainer_details : Option TrainerDetails
  start_date : Option String
  venue : Option String
  class_size : Option ClassSize
deriving Repr, DecidableEq

/-- `delivery_mode.replace(/_/g, ' ').toUpperCase()`. -/
def DeliveryMode.render : DeliveryMode → String
  | .face_to_face => "FACE TO FACE"
  | .online => "ONLINE"
  | .blended => "BLENDED"
  | .workplace => "WORKPLACE"
  | .mixed => "MIXED"

/-- The raw enum string, as interpolated by `buildReflectionPrompt`. -/
def DeliveryMode.raw : DeliveryMode → String
  | .face_to_face => "face_to_face"
  | .online => "online"
  | .blended => "blended"
  | .workplace => "workplace"
  | .mixed => "mixed"

/-- `(total_hours / weeks).toFixed(1)` for non-negative operands:
round-half-up to one decimal place. -/
def toFixed1 (num den : Nat) : String :=
  let t := (20 * num + den) / (2 * den)
  toString (t / 10) ++ "." ++ toString (t % 10)

/-- `${x || 'TBD'}` for an optional numeric field (zero is falsy). -/
def tbd (o : Option Nat) : String :=
  match o with
  | some n => if n = 0 then "TBD" else toString n
  | none => "TBD"

/-- Truthiness of an optional string (absent and empty are falsy). -/
def strTruthy (o : Option String) : Bool :=
  match o with
  | some s => s ≠ ""
  | none => false

/-- A labelled line for a truthy optional string, else the empty
string (the template line itself, with its newline, remains). -/
def optLine (label : String) (o : Option String) : String :=
  match o with
  | some s => if s ≠ "" then label ++ s else ""
  | none => ""

/-- `buildUserPrompt(intake, previousError)` from `lib/aprv`. -/
def buildUserPrompt (intake : IntakeFormData) (previousError : Option String) : String :=
  let base :=
    "Generate a comprehensive unit plan for the following Australian RTO training program:\n\nQUALIFICATION\nTitle: "
    ++ intake.qualification.title ++ "\n"
    ++ optLine "Code: " intake.qualification.code ++ "\n"
    ++ optLine "Level: " intake.qualification.level
    ++ "\n\nDURATION\nWeeks: " ++ toString intake.duration.weeks
    ++ "\nTotal Hours: " ++ toString intake.duration.total_hours
    ++ "\nHours per Week: " ++ toFixed1 intake.duration.total_hours intake.duration.weeks
    ++ "\n\nDELIVERY MODE\n" ++ intake.delivery_mode.render
    ++ "\n\nCOHORT PROFILE\n" ++ intake.cohort_profile ++ "\n"
  let withStart :=
    base ++ (match intake.start_date with
      | some s => if s ≠ "" then "\nSTART DATE: " ++ s else ""
      | none => "")
  let withVenue :=
    withStart ++ (match intake.venue with
      | some v => if v ≠ "" then "\nVENUE: " ++ v else ""
      | none => "")
  let withClassSize :=
    withVenue ++ (match intake.class_size with
      | some cs =>
          "\nCLASS SIZE: Min " ++ tbd cs.min ++ ", Max " ++ tbd cs.max ++
            ", Target " ++ tbd cs.target
      | none => "")
  let withTrainer :=
    withClassSize ++ (match intake.trainer_details with
      | some td => (match td.primary_trainer with
          | some p => if p ≠ "" then "\nPRIMARY TRAINER: " ++ p else ""
          | none => "")
      | none => "")
  let withResources :=
    withTrainer ++ (match intake.resources with
      | some r =>
          "\n\nAVAILABLE RESOURCES:"
          ++ (match r.facilities with
              | some (x :: xs) => "\nFacilities: " ++ String.intercalate ", " (x :: xs)
              | _ => "")
          ++ (match r.equipment with
              | some (x :: xs) => "\nEquipment: " ++ String.intercalate ", " (x :: xs)
              | _ => "")
          ++ (match r.technology with
              | some (x :: xs) => "\nTechnology: " ++ String.intercalate ", " (x :: xs)
              | _ => "")
      | none => "")
  let withAssessment :=
    withResources ++ (match intake.assessment_preferences with
      | some (x :: xs) =>
          "\n\nASSESSMENT PREFERENCES: " ++ String.intercalate ", " (x :: xs)
      | _ => "")
  let withUnits :=
    withAssessment ++ (match intake.unit_list with
      | some u => if u ≠ "" then "\n\nUNIT LIST (if provided):\n" ++ u else ""
      | none => "")
  let withRepair :=
    withUnits ++ (match previousError with
      | some msg =>
          "\n\n⚠️ PREVIOUS GENERATION FAILED - PLEASE FIX:\n" ++ msg ++
            "\n\nPlease address the above issues and generate a corrected plan."
      | none => "")
  withRepair ++
    "\n\nPlease generate a complete, audit-ready unit plan following the APRV process:\n1. Analyze the requirements carefully\n2. Plan a comprehensive delivery schedule\n3. Ensure all elements are realistic and practical\n4. Output valid JSON matching the required schema\n\nReturn ONLY the JSON response, no additional text or markdown."

/-- `buildReflectionPrompt(intake, plan)`. -/
def buildReflectionPrompt (intake : IntakeFormData) (plan : Json) : String :=
  "Review this generated unit plan and identify any issues, gaps, or improvements needed:\n\nORIGINAL REQUEST:\n- Qualification: "
  ++ intake.qualification.title
  ++ "\n- Duration: " ++ toString intake.duration.weeks ++ " weeks, "
  ++ toString intake.duration.total_hours ++ " hours"
  ++ "\n- Delivery Mode: " ++ intake.delivery_mode.raw
  ++ "\n\nGENERATED PLAN:\n" ++ (Json.stringify2 plan 0).take 5000
  ++ "\n\nCheck for:\n1. Completeness: Are all required fields populated with realistic values?\n2. Consistency: Do hours add up correctly? Are dates logical?\n3. Practicality: Is this plan actually deliverable by a real RTO?\n4. Compliance: Does it align with Australian VET sector requirements?\n\nIf you find any issues, list them clearly. If the plan looks good, say \"No issues found.\""

/-- `toLowerCase()` (the responses under scrutiny are ASCII). -/
def jsToLower (s : String) : String := String.mk (s.data.map Char.toLower)

/-- The keyword heuristic of `reflectPhase` on the lowercased response
text. -/
def reflectHasIssues (responseText : String) : Bool :=
  jsIncludes (jsToLower responseText) "issue" ||
  jsIncludes (jsToLower responseText) "gap" ||
  jsIncludes (jsToLower responseText) "missing" ||
  jsIncludes (jsToLower responseText) "incomplete"

structure PhaseLog where
  phase : String
  status : String
  details : String
deriving Repr, DecidableEq

/-- The orchestration environment: the intake record, the `required`
list of the JSON schema handed to `generateWithAPRV`, and the two
remote-call oracles (attempt number and prompt to outcome). -/
structure APRVEnv where
  intake : IntakeFormData
  required : List String
  planCall : Nat → String → Except String String
  reflectCall : Nat → String → Except String String

/-- Phases 1–2 (`analyzePlanPhase`): build the user prompt, call the
model, extract JSON; a missing JSON payload becomes the thrown
extraction error.  Returns the outcome and the grown log. -/
def analyzePlanPhase (env : APRVEnv) (attempt : Nat) (previousError : Option String)
    (logs : List PhaseLog) : Except String Json × List PhaseLog :=
  let logs₁ := logs ++ [{ phase := "analyze", status := "success",
                          details := "Starting generation with Claude API" }]
  let userPrompt := buildUserPrompt env.intake previousError
  match env.planCall attempt userPrompt with
  | .error e =>
      (.error e, logs₁ ++ [{ phase := "plan", status := "failure",
                             details := "Generation failed: " ++ e }])
  | .ok text =>
      match extractJSON text with
      | none =>
          (.error "Failed to extract valid JSON from Claude response",
           logs₁ ++ [{ phase := "plan", status := "failure",
                       details := "Generation failed: Failed to extract valid JSON from Claude response" }])
      | some plan =>
          (.ok plan, logs₁ ++ [{ phase := "plan", status := "success",
                                 details := "Generated plan" }])

/-- Phase 3 (`reflectPhase`): the self-critique call.  A thrown error
is swallowed: the phase logs a warning and reports no issues. -/
def reflectPhase (env : APRVEnv) (attempt : Nat) (plan : Json)
    (logs : List PhaseLog) : (Bool × List String) × List PhaseLog :=
  let prompt := buildReflectionPrompt env.intake plan
  match env.reflectCall attempt prompt with
  | .error e =>
      ((false, []),
       logs ++ [{ phase := "reflect", status := "warning",
                  details := "Reflection failed: " ++ e ++ ". Continuing..." }])
  | .ok resp =>
      let has := reflectHasIssues resp
      ((has, if has then [resp.take 200] else []),
       logs ++ [{ phase := "reflect", status := if has then "warning" else "success",
                  details := if has then "Issues found" else "No issues found" }])

/-- Phase 4 (`verifyPhase`): run `validateAgainstSchema` and log the
outcome. -/
def verifyPhase (plan : Json) (required : List String)
    (logs : List PhaseLog) : VResult × List PhaseLog :=
  let r := validateAgainstSchema plan required
  (r, logs ++ [{ phase := "verify",
                 status := if r.valid then "success" else "failure",
                 details := if r.valid then "Schema validation passed"
                   else "Schema validation failed: " ++ toString r.errors.length ++ " errors" }])

structure LoopOut where
  result : Except String Json
  logs : List PhaseLog
  attempts : Nat
deriving Repr

/-- The `for` loop of `executeAPRVLoop`; `fuel` is
`maxAttempts + 1 - attempt`, and `context.attempts` is `attempt + 1`
inside an iteration. -/
def loopAux (env : APRVEnv) (maxAttempts : Nat) :
    Nat → Nat → Option String → List PhaseLog → LoopOut
  | 0, attempt, lastError, logs =>
      { result := .error (lastError.getD "APRV loop failed after maximum attempts"),
        logs := logs, attempts := attempt }
  | fuel + 1, attempt, lastError, logs =>
      match analyzePlanPhase env attempt lastError logs with
      | (.error e, logs₁) =>
          if attempt ≥ maxAttempts then
            { result := .error e, logs := logs₁, attempts := attempt + 1 }
          else
            loopAux env maxAttempts fuel (attempt + 1) (some e)
              (logs₁ ++ [{ phase := "repair", status := "warning",
                           details := "Attempt " ++ toString (attempt + 1) ++ " failed: "
                             ++ e ++ ". Retrying..." }])
      | (.ok plan, logs₁) =>
          let out := reflectPhase env attempt plan logs₁
          let hasIssues := out.1.1
          let issues := out.1.2
          let logs₂ := out.2
          if hasIssues ∧ attempt < maxAttempts then
            loopAux env maxAttempts fuel (attempt + 1)
              (some ("Reflection issues: " ++ String.intercalate "; " issues))
              (logs₂ ++ [{ phase := "reflect", status := "warning",
                           details := "Issues identified: " ++ String.intercalate ", " issues }])
          else
            let vout := verifyPhase plan env.required logs₂
            let v := vout.1
            let logs₃ := vout.2
            if v.valid then
              { result := .ok plan,
                logs := logs₃ ++ [{ phase := "verify", status := "success",
                                    details := "Schema validation passed" }],
                attempts := attempt + 1 }
            else if attempt < maxAttempts then
              loopAux env maxAttempts fuel (attempt + 1)
                (some ("Schema validation errors: " ++ formatValidationErrors v.errors))
                (logs₃ ++ [{ phase := "verify", status := "warning",
                             details := "Schema validation failed: " ++ toString v.errors.length
                               ++ " errors. Attempting repair..." }])
            else
              { result := .error ("Schema validation failed: " ++ formatValidationErrors v.errors),
                logs := logs₃ ++ [{ phase := "verify", status := "failure",
                                    details := "Schema validation failed after max repair attempts" }],
                attempts := attempt + 1 }

/-- `executeAPRVLoop`, from attempt 0 with the given starting log. -/
def executeAPRVLoop (env : APRVEnv) (maxAttempts : Nat) (logs : List PhaseLog) : LoopOut :=
  loopAux env maxAttempts (maxAttempts + 1) 0 none logs

def MAX_REPAIR_ATTEMPTS : Nat := 2

structure GeneratedPlan where
  success : Bool
  plan : Option Json
  error : Option String
  attempts : Nat
  phase_logs : List PhaseLog
deriving Repr

/-- `generateWithAPRV(intake, claudeClient, schema)`.  The
`systemPromptLoad` argument stands for `loadSystemPrompt()` reading
`prompts/system.md` (a file outside the sources); on failure that
helper throws its own fixed configuration message.  The loaded prompt
text only travels to the remote oracle, so its content does not appear
elsewhere in the model. -/
def generateWithAPRV (env : APRVEnv) (systemPromptLoad : Except String String) : GeneratedPlan :=
  match systemPromptLoad with
  | .error _ =>
      { success := false, plan := none,
        error := some (formatUserError
          "Failed to load system prompt file. Ensure prompts/system.md exists."),
        attempts := 0, phase_logs := [] }
  | .ok _ =>
      let logs₀ : List PhaseLog :=
        [{ phase := "analyze", status := "success",
           details := "System prompt loaded successfully" }]
      let out := executeAPRVLoop env MAX_REPAIR_ATTEMPTS logs₀
      match out.result with
      | .ok plan =>
          { success := true, plan := some plan, error := none,
            attempts := out.attempts, phase_logs := out.logs }
      | .error e =>
          { success := false, plan := none, error := some (formatUserError e),
            attempts := out.attempts, phase_logs := out.logs }

/-- Number of log entries of a given phase (the `plan` count is the
number of Generate phases executed). -/
def countPhase (logs : List PhaseLog) (p : String) : Nat :=
  (logs.filter (fun l => l.phase = p)).length

/-! ## `lib/schema-validator.ts` — the Zod `GeneratedPlanSchema`

Zod validators are modelled by a pair of functions: `run` mirrors
`_parse` (it collects every issue, with Zod's path discipline, and
produces the transformed output — unknown object keys stripped,
defaulted fields filled), and `tight` is the side predicate used by the
round-trip theorem: it holds when the candidate carries no undeclared
object fields, no duplicate keys, and no absent defaulted field, i.e.
exactly when parsing performs no visible rewriting.  Issue messages are
abbreviations of Zod's texts ("Required" is verbatim); issue paths
follow Zod exactly. -/

inductive PathItem where
  | key (s : String) : PathItem
  | idx (n : Nat) : PathItem
deriving Repr, DecidableEq

def PathItem.render : PathItem → String
  | .key s => s
  | .idx n => toString n

/-- `err.path.join('.')`. -/
def renderPath (path : List PathItem) : String :=
  String.intercalate "." (path.map PathItem.render)

structure ZIssue where
  path : List PathItem
  message : String
deriving Repr, DecidableEq

/-- A modelled Zod validator. -/
structure ZP where
  run : List PathItem → Json → List ZIssue × Json
  tight : Json → Bool

inductive ZMode where
  | req | opt | dflt (v : Json)

def ZMode.absentOk : ZMode → Bool
  | .req => true
  | .opt => true
  | .dflt _ => false

abbrev ZField := String × ZMode × ZP

/-- A primitive (non-container) validator: the checks fire in order and
the value passes through unchanged. -/
def zprim (check : Json → List String) : ZP :=
  { run := fun path j => ((check j).map (fun m => { path := path, message := m }), j),
    tight := fun _ => true }

/-- Element-wise run of `z.array(elem)` starting at index `i`. -/
def runElems (elem : ZP) (path : List PathItem) :
    Nat → List Json → List ZIssue × List Json
  | _, [] => ([], [])
  | i, e :: es =>
      let h := elem.run (path ++ [.idx i]) e
      let t := runElems elem path (i + 1) es
      (h.1 ++ t.1, h.2 :: t.2)

/-- `z.array(elem).min(minLen)`. -/
def zarray (minLen : Nat) (elem : ZP) : ZP :=
  { run := fun path j =>
      match j with
      | .arr es =>
          let minIssues :=
            if es.length < minLen then
              [{ path := path,
                 message := "Array must contain at least " ++ toString minLen
                   ++ " element(s)" }]
            else []
          let sub := runElems elem path 0 es
          (minIssues ++ sub.1, .arr sub.2)
      | _ => ([{ path := path, message := "Expected array" }], j),
    tight := fun j =>
      match j with
      | .arr es => es.all elem.tight
      | _ => true }

/-- Run of an object shape over the candidate's fields: declared fields
in declaration order; a hit is validated under the extended path, a
miss is an issue (required), skipped (optional) or filled (default). -/
def runFields : List ZField → List PathItem → List (String × Json) →
    List ZIssue × List (String × Json)
  | [], _, _ => ([], [])
  | (name, mode, p) :: rest, path, fs =>
      let tl := runFields rest path fs
      match jlookup fs name with
      | some v =>
          let h := p.run (path ++ [.key name]) v
          (h.1 ++ tl.1, (name, h.2) :: tl.2)
      | none =>
          match mode with
          | .req => ({ path := path ++ [.key name], message := "Required" } :: tl.1, tl.2)
          | .opt => tl
          | .dflt v => (tl.1, (name, v) :: tl.2)

def nodupKeysB : List (String × Json) → Bool
  | [] => true
  | (k, _) :: tl => !tl.any (fun f => f.1 = k) && nodupKeysB tl

/-- The per-field part of an object's tightness. -/
def fieldsTight : List ZField → List (String × Json) → Bool
  | [], _ => true
  | (name, mode, p) :: rest, fs =>
      (match jlookup fs name with
       | some v => p.tight v
       | none => mode.absentOk) && fieldsTight rest fs

/-- `z.object(shape)` (default unknown-key behaviour: strip). -/
def zobj (fields : List ZField) : ZP :=
  { run := fun path j =>
      match j with
      | .obj fs =>
          let sub := runFields fields path fs
          (sub.1, .obj sub.2)
      | _ => ([{ path := path, message := "Expected object" }], j),
    tight := fun j =>
      match j with
      | .obj fs =>
          nodupKeysB fs && fs.all (fun f => fields.any (fun g => g.1 = f.1)) &&
            fieldsTight fields fs
      | _ => true }

/-! ### Leaf checks -/

def zStr : Json → List String
  | .str _ => []
  | _ => ["Expected string"]

def zStrMin (n : Nat) : Json → List String
  | .str s =>
      if s.length < n then
        ["String must contain at least " ++ toString n ++ " character(s)"]
      else []
  | _ => ["Expected string"]

def zBool : Json → List String
  | .bool _ => []
  | _ => ["Expected boolean"]

/-- `z.record(z.string(), z.unknown())`: any object. -/
def zRecord : Json → List String
  | .obj _ => []
  | _ => ["Expected object"]

def zEnum (allowed : List String) : Json → List String
  | .str s => if allowed.contains s then [] else ["Invalid enum value"]
  | _ => ["Invalid enum value"]

/-- `z.number()` with optional `.int()`, `.min`, `.max` checks, fired
in that (declaration) order. -/
def zNum (intReq : Bool) (lo hi : Option Rat) : Json → List String
  | .num q =>
      (if intReq && !q.isInt then ["Expected integer, received float"] else []) ++
      (match lo with
       | some l => if q < l then ["Number too small"] else []
       | none => []) ++
      (match hi with
       | some h => if h < q then ["Number too big"] else []
       | none => [])
  | _ => ["Expected number"]

/-- The pattern `^\d+\.\d+\.\d+$` of `metadata.schema_version`. -/
def isSchemaVersion (s : String) : Bool :=
  let (a, r₁) := takeDigits s.data
  match a, r₁ with
  | _ :: _, '.' :: r₂ =>
      let (b, r₃) := takeDigits r₂
      match b, r₃ with
      | _ :: _, '.' :: r₄ =>
          let (c, r₅) := takeDigits r₄
          !c.isEmpty && r₅.isEmpty
      | _, _ => false
  | _, _ => false

def isUpper (c : Char) : Bool := 'A' ≤ c && c ≤ 'Z'

/-- The pattern `^[A-Z]{3}[A-Z0-9]{6,10}$` of `unit_code`. -/
def isUnitCode (s : String) : Bool :=
  let cs := s.data
  let pre := cs.take 3
  let rest := cs.drop 3
  pre.length = 3 && pre.all isUpper &&
    6 ≤ rest.length && rest.length ≤ 10 &&
    rest.all (fun c => isUpper c || isDigit c)

/-- `z.string().datetime()` (Zod v3 default: UTC, optional fractional
seconds): `^\d{4}-\d{2}-\d{2}T\d{2}:\d{2}:\d{2}(\.\d+)?Z$`. -/
def isDatetimeZ (s : String) : Bool :=
  match s.data with
  | y₁ :: y₂ :: y₃ :: y₄ :: '-' :: mo₁ :: mo₂ :: '-' :: d₁ :: d₂ :: 'T' ::
      h₁ :: h₂ :: ':' :: n₁ :: n₂ :: ':' :: se₁ :: se₂ :: rest =>
      [y₁, y₂, y₃, y₄, mo₁, mo₂, d₁, d₂, h₁, h₂, n₁, n₂, se₁, se₂].all isDigit &&
      (match rest with
       | ['Z'] => true
       | '.' :: tl =>
           let (ds, r) := takeDigits tl
           !ds.isEmpty && r = ['Z']
       | _ => false)
  | _ => false

def zStrCheck (ok : String → Bool) (msg : String) : Json → List String
  | .str s => if ok s then [] else [msg]
  | _ => ["Expected string"]

/-! ### The schemas of `lib/schema-validator.ts`, in source order -/

def MetadataSchema : ZP := zobj [
  ("schema_version", .req, zprim (zStrCheck isSchemaVersion "Invalid")),
  ("project_type", .dflt (.str "unit_plan"),
    zprim (zEnum ["unit_plan", "session_plan", "assessment_plan"])),
  ("generated_at", .req, zprim (zStrCheck isDatetimeZ "Invalid datetime")),
  ("generator_model", .opt, zprim zStr),
  ("reserved", .dflt (.obj []), zprim zRecord)]

def QualificationSchema : ZP := zobj [
  ("code", .opt, zprim zStr),
  ("title", .req, zprim (zStrMin 5)),
  ("level", .opt, zprim (zEnum ["Certificate I", "Certificate II", "Certificate III",
    "Certificate IV", "Diploma", "Advanced Diploma", "Short Course", "Skill Set", ""])),
  ("packaging_rules", .opt, zprim zStr)]

def DurationSchema : ZP := zobj [
  ("weeks", .req, zprim (zNum true (some 1) (some 208))),
  ("total_hours", .req, zprim (zNum false (some 1) (some 10000))),
  ("hours_per_week", .opt, zprim (zNum false (some 0) none)),
  ("study_mode", .opt, zprim (zEnum ["full_time", "part_time", "flexible", ""]))]

def TrainerDetailsSchema : ZP := zobj [
  ("primary_trainer", .opt, zprim zStr),
  ("additional_trainers", .opt, zarray 0 (zprim zStr)),
  ("qualifications_required", .opt, zarray 0 (zprim zStr))]

def MetaSchema : ZP := zobj [
  ("qualification", .req, QualificationSchema),
  ("duration", .req, DurationSchema),
  ("delivery_mode", .req,
    zprim (zEnum ["face_to_face", "online", "blended", "workplace", "mixed"])),
  ("cohort_profile", .req, zprim (zStrMin 10)),
  ("trainer_details", .opt, TrainerDetailsSchema),
  ("start_date", .opt, zprim zStr),
  ("end_date", .opt, zprim zStr),
  ("venue", .opt, zprim zStr),
  ("class_size", .opt, zobj [
    ("min", .opt, zprim (zNum true (some 1) none)),
    ("max", .opt, zprim (zNum true (some 1) none)),
    ("target", .opt, zprim (zNum true (some 1) none))])]

def ActivitySchema : ZP := zobj [
  ("title", .req, zprim (zStrMin 3)),
  ("duration_hours", .req, zprim (zNum false (some (mkRat 1 4)) (some 40))),
  ("delivery_method", .req, zprim (zEnum ["lecture", "workshop", "tutorial", "practical",
    "online_module", "simulation", "workplace_visit", "guest_speaker", "group_work",
    "self_paced", "project", "other"])),
  ("description", .opt, zprim zStr),
  ("resources", .opt, zarray 0 (zprim zStr)),
  ("learning_outcomes", .opt, zarray 0 (zprim zStr))]

def AssessmentSchema : ZP := zobj [
  ("title", .req, zprim (zStrMin 3)),
  ("type", .req, zprim (zEnum ["written", "practical", "project", "portfolio",
    "observation", "presentation", "roleplay", "case_study", "exam", "interview",
    "recognition", "other"])),
  ("units_assessed", .req, zarray 1 (zprim zStr)),
  ("due_date", .opt, zprim zStr),
  ("duration_hours", .opt, zprim (zNum false (some 0) none)),
  ("weighting", .opt, zprim zStr),
  ("description", .opt, zprim zStr)]

def WeeklyPlanSchema : ZP := zobj [
  ("week_number", .req, zprim (zNum true (some 1) none)),
  ("week_theme", .opt, zprim zStr),
  ("units_covered", .opt, zarray 0 (zprim zStr)),
  ("activities", .req, zarray 0 ActivitySchema),
  ("assessments", .opt, zarray 0 AssessmentSchema),
  ("notes", .opt, zprim zStr)]

def UnitSchema : ZP := zobj [
  ("unit_code", .req, zprim (zStrCheck isUnitCode "Invalid")),
  ("unit_title", .req, zprim (zStrMin 5)),
  ("nominal_hours", .req, zprim (zNum false (some 1) (some 1000))),
  ("unit_type", .opt, zprim (zEnum ["core", "elective", "prerequisite", ""])),
  ("delivery_methods", .opt, zarray 0 (zprim (zEnum ["face_to_face", "online",
    "workplace", "simulation", "blended", "self_paced"]))),
  ("assessment_methods", .opt, zarray 0 (zprim (zEnum ["written", "practical",
    "project", "portfolio", "observation", "presentation", "roleplay", "case_study",
    "exam", "interview", "recognition", "third_party_report", "logbook"]))),
  ("assessment_tasks", .opt, zarray 0 (zobj [
    ("task_name", .req, zprim zStr),
    ("method", .req, zprim zStr),
    ("description", .opt, zprim zStr)])),
  ("prerequisites", .opt, zarray 0 (zprim zStr)),
  ("weeks_scheduled", .opt, zarray 0 (zprim (zNum true (some 1) none))),
  ("learning_resources", .opt, zarray 0 (zprim zStr))]

def ResourcesSchema : ZP := zobj [
  ("facilities", .opt, zarray 0 (zprim zStr)),
  ("equipment", .opt, zarray 0 (zprim zStr)),
  ("materials", .opt, zarray 0 (zprim zStr)),
  ("technology", .opt, zarray 0 (zprim zStr)),
  ("external", .opt, zarray 0 (zprim zStr))]

def RiskSchema : ZP := zobj [
  ("risk_description", .req, zprim (zStrMin 10)),
  ("category", .opt, zprim (zEnum ["learner", "trainer", "resource", "compliance",
    "scheduling", "assessment", "external", "other"])),
  ("likelihood", .req, zprim (zEnum ["low", "medium", "high"])),
  ("impact", .req, zprim (zEnum ["low", "medium", "high"])),
  ("mitigation", .opt, zprim zStr)]

def AssumptionSchema : ZP := zobj [
  ("assumption", .req, zprim (zStrMin 10)),
  ("category", .opt, zprim (zEnum ["learner_capability", "resource_availability",
    "trainer_qualification", "scheduling", "compliance", "other"])),
  ("validation_required", .opt, zprim zBool)]

def ComplianceNotesSchema : ZP := zobj [
  ("volume_of_learning", .opt, zprim zStr),
  ("training_packaging_compliance", .opt, zprim zStr),
  ("assessment_validation", .opt, zprim zStr),
  ("trainer_assessor_requirements", .opt, zprim zStr)]

def GeneratedPlanSchema : ZP := zobj [
  ("metadata", .req, MetadataSchema),
  ("meta", .req, MetaSchema),
  ("weekly_plan", .req, zarray 1 WeeklyPlanSchema),
  ("units", .req, zarray 1 UnitSchema),
  ("resources", .opt, ResourcesSchema),
  ("risks", .opt, zarray 0 RiskSchema),
  ("assumptions", .opt, zarray 0 AssumptionSchema),
  ("confidence_score", .req, zprim (zNum false (some 0) (some 1))),
  ("generation_notes", .opt, zprim zStr),
  ("compliance_notes", .opt, ComplianceNotesSchema)]

/-- The result record of `validatePlan`. -/
structure ValidationResult where
  success : Bool
  data : Option Json
  errors : Option (List String)
deriving Repr

/-- `validatePlan(plan)`: `GeneratedPlanSchema.parse` inside
try/catch — the typed data exactly when the issue list is empty,
otherwise the rendered issue list and no data. -/
def validatePlan (plan : Json) : ValidationResult :=
  let r := GeneratedPlanSchema.run [] plan
  if r.1.isEmpty then
    { success := true, data := some r.2, errors := none }
  else
    { success := false, data := none,
      errors := some (r.1.map (fun e => renderPath e.path ++ ": " ++ e.message)) }

/-- Lookup of a declared field in an object shape. -/
def findField : List ZField → String → Option (ZMode × ZP)
  | [], _ => none
  | (name, mode, p) :: rest, k =>
      if name = k then some (mode, p) else findField rest k

/-- Round-trip soundness of a modelled Zod validator: whenever parsing
reports no issue and the candidate is tight (no undeclared or
duplicated object fields, no absent defaulted field), the parse output
denotes the same object graph as the input. -/
def Sound (p : ZP) : Prop :=
  ∀ path j, (p.run path j).1 = [] → p.tight j = true →
    Json.canon (p.run path j).2 = Json.canon j

/-! ## Concrete values used by the claims -/

/-- The `required` list of the JSON schema shipped as
`prompts/schema.json` (outside the sources): the plan's five mandatory
top-level sections. -/
def req5 : List String :=
  ["metadata", "meta", "weekly_plan", "units", "confidence_score"]

/-- A `meta` section satisfying every Zod constraint. -/
def metaOk : Json := .obj [
  ("qualification", .obj [("title", .str "Certificate III in Carpentry")]),
  ("duration", .obj [("weeks", .num 2), ("total_hours", .num 80)]),
  ("delivery_mode", .str "face_to_face"),
  ("cohort_profile", .str "12 adult learners in trade")]

/-- A fully valid plan that omits the two defaulted metadata fields
(`project_type`, `reserved`). -/
def planValidNoDefaults : Json := .obj [
  ("metadata", .obj [("schema_version", .str "1.0.0"),
                     ("generated_at", .str "2024-01-15T10:00:00Z")]),
  ("meta", metaOk),
  ("weekly_plan", .arr [.obj [("week_number", .num 1), ("activities", .arr [])]]),
  ("units", .arr [.obj [("unit_code", .str "ABCDEF123"),
                        ("unit_title", .str "Safe work practices"),
                        ("nominal_hours", .num 40)]]),
  ("confidence_score", .num (mkRat 1 2))]

/-- A fully valid plan with every defaulted field supplied and no
undeclared fields. -/
def planValidTight : Json := .obj [
  ("metadata", .obj [("schema_version", .str "1.0.0"),
                     ("project_type", .str "unit_plan"),
                     ("generated_at", .str "2024-01-15T10:00:00Z"),
                     ("reserved", .obj [])]),
  ("meta", metaOk),
  ("weekly_plan", .arr [.obj [("week_number", .num 1), ("activities", .arr [])]]),
  ("units", .arr [.obj [("unit_code", .str "ABCDEF123"),
                        ("unit_title", .str "Safe work practices"),
                        ("nominal_hours", .num 40)]]),
  ("confidence_score", .num (mkRat 1 2))]

/-- `planValidTight` with a lower-case unit code: every truthiness and
shape check of `validateAgainstSchema` still passes, but the Zod
`unit_code` pattern rejects it. -/
def planBadUnitCode : Json := .obj [
  ("metadata", .obj [("schema_version", .str "1.0.0"),
                     ("project_type", .str "unit_plan"),
                     ("generated_at", .str "2024-01-15T10:00:00Z"),
                     ("reserved", .obj [])]),
  ("meta", metaOk),
  ("weekly_plan", .arr [.obj [("week_number", .num 1), ("activities", .arr [])]]),
  ("units", .arr [.obj [("unit_code", .str "abc"),
                        ("unit_title", .str "Safe work practices"),
                        ("nominal_hours", .num 40)]]),
  ("confidence_score", .num (mkRat 1 2))]

/-- A candidate with three independent violations: a short cohort
profile, a malformed unit code and an out-of-range confidence score. -/
def planMultiViolation : Json := .obj [
  ("metadata", .obj [("schema_version", .str "1.0.0"),
                     ("project_type", .str "unit_plan"),
                     ("generated_at", .str "2024-01-15T10:00:00Z"),
                     ("reserved", .obj [])]),
  ("meta", .obj [
    ("qualification", .obj [("title", .str "Certificate III in Carpentry")]),
    ("duration", .obj [("weeks", .num 2), ("total_hours", .num 80)]),
    ("delivery_mode", .str "face_to_face"),
    ("cohort_profile", .str "short")]),
  ("weekly_plan", .arr [.obj [("week_number", .num 1), ("activities", .arr [])]]),
  ("units", .arr [.obj [("unit_code", .str "abc"),
                        ("unit_title", .str "Safe work practices"),
                        ("nominal_hours", .num 40)]]),
  ("confidence_score", .num 2)]

/-- An intake record with every optional field absent. -/
def intakeBase : IntakeFormData :=
  { qualification := { title := "Certificate III in Carpentry", code := none, level := none },
    duration := { weeks := 2, total_hours := 80 },
    delivery_mode := .face_to_face,
    cohort_profile := "12 adult learners",
    resources := none, assessment_preferences := none, unit_list := none,
    trainer_details := none, start_date := none, venue := none, class_size := none }

/-- An intake whose resources carry only `materials`, and whose class
size is present with all three bounds absent. -/
def intakeC7 : IntakeFormData :=
  { intakeBase with
    resources := some { facilities := none, equipment := none,
                        materials := some ["Timber stock"], technology := none },
    class_size := some { min := none, max := none, target := none } }

/-- Response text whose extracted JSON fails `validateAgainstSchema`
under `req5` on every attempt (an empty object). -/
def envAlwaysInvalid : APRVEnv :=
  { intake := intakeBase, required := req5,
    planCall := fun _ _ => .ok "\x7b\x7d",
    reflectCall := fun _ _ => .ok "Looks fine" }

/-- A response text passing `validateAgainstSchema` with an empty
`required` list. -/
def validVerifyText : String :=
  "\x7b\"weekly_plan\":[1],\"units\":[1],\"confidence_score\":0.5\x7d"

/-- Generation always yields a verifiable plan while every reflection
call throws. -/
def envReflectThrows : APRVEnv :=
  { intake := intakeBase, required := [],
    planCall := fun _ _ => .ok validVerifyText,
    reflectCall := fun _ _ => .error "network reset" }

/-- Generation always yields a verifiable plan; the first reflection
answers with the instructed all-clear wording, later ones with
keyword-free text. -/
def envReflectNoIssues : APRVEnv :=
  { intake := intakeBase, required := [],
    planCall := fun _ _ => .ok validVerifyText,
    reflectCall := fun i _ => if i = 0 then .ok "No issues found." else .ok "Great plan" }

/-! ## Helper lemmas -/

theorem listInfix_nil (n : List Char) (h : listInfix n [] = true) : n = [] := by
  simpa [listInfix, List.isEmpty_iff] using h

theorem listInfix_append_right (n a b : List Char) (h : listInfix n b = true) :
    listInfix n (a ++ b) = true := by
  induction a with
  | nil => simpa using h
  | cons c tl ih => simp [listInfix, ih]

theorem isPrefixOf_append (n a b : List Char) (h : n.isPrefixOf a = true) :
    n.isPrefixOf (a ++ b) = true := by
  rw [List.isPrefixOf_iff_prefix] at h ⊢
  exact h.trans (List.prefix_append a b)

theorem listInfix_append_left (n a b : List Char) (h : listInfix n a = true) :
    listInfix n (a ++ b) = true := by
  induction a with
  | nil => cases listInfix_nil n h; cases b <;> simp [listInfix]
  | cons c tl ih =>
      simp only [listInfix, Bool.or_eq_true] at h ⊢
      rcases h with h | h
      · exact Or.inl (isPrefixOf_append n (c :: tl) b h)
      · exact Or.inr (by simpa [listInfix] using ih h)

theorem jsIncludes_append_right (a b n : String) (h : jsIncludes b n = true) :
    jsIncludes (a ++ b) n = true := by
  simpa [jsIncludes, String.data_append] using listInfix_append_right n.data a.data b.data (by simpa [jsIncludes] using h)

theorem jsIncludes_append_left (a b n : String) (h : jsIncludes a n = true) :
    jsIncludes (a ++ b) n = true := by
  simpa [jsIncludes, String.data_append] using listInfix_append_left n.data a.data b.data (by simpa [jsIncludes] using h)

theorem countPhase_append (a b : List PhaseLog) (p : String) :
    countPhase (a ++ b) p = countPhase a p + countPhase b p := by
  simp [countPhase, List.filter_append]

theorem listInfix_suffix (pre n : List Char) : listInfix n (pre ++ n) = true := by
  induction pre with
  | nil =>
      cases n with
      | nil => rfl
      | cons c tl =>
          simp only [List.nil_append, listInfix, Bool.or_eq_true]
          exact Or.inl (by rw [List.isPrefixOf_iff_prefix])
  | cons c tl ih => simp [listInfix, ih]

/-- The needle occurs when the haystack ends with it. -/
theorem jsIncludes_suffix (pre n : String) : jsIncludes (pre ++ n) n = true := by
  simpa [jsIncludes, String.data_append] using listInfix_suffix pre.data n.data

theorem string_append_ne_empty_right (a b : String) (h : b ≠ "") : a ++ b ≠ "" := by
  intro hc
  apply h
  have hd := congrArg String.data hc
  rw [String.data_append] at hd
  have hb : b.data = [] := (List.append_eq_nil.mp hd).2
  cases b
  cases hb
  rfl

theorem cs3_sublist (cs : List Char) :
    (dropJsWs (if ("json".data).isPrefixOf (cs.drop 3) = true
               then (cs.drop 3).drop 4 else cs.drop 3)).Sublist cs := by
  refine (List.dropWhile_sublist _).trans ?_
  split
  · exact ((List.drop_sublist 4 (cs.drop 3)).trans (List.drop_sublist 3 cs))
  · exact List.drop_sublist 3 cs

theorem cbAt_none_of_no_brace (cs : List Char) (h : '{' ∉ cs) : cbAt cs = none := by
  simp only [cbAt]
  split
  · split
    · next heq =>
        exfalso
        exact h ((cs3_sublist cs).mem (heq ▸ List.mem_cons_self '{' _))
    · rfl
  · rfl

theorem cbScan_none_of_no_brace : ∀ fuel cs, '{' ∉ cs → cbScan fuel cs = none := by
  intro fuel
  induction fuel with
  | zero => intro cs _; rfl
  | succ n ih =>
      intro cs h
      cases cs with
      | nil => rfl
      | cons c tl =>
          simp only [cbScan, cbAt_none_of_no_brace _ h]
          exact ih tl (fun hm => h (List.mem_cons_of_mem _ hm))

theorem objectSpan_none_of_no_brace (cs : List Char) (h : '{' ∉ cs) :
    objectSpan cs = none := by
  have hf : cs.findIdx? (fun c => c = '{') = none := by
    rw [List.findIdx?_eq_none_iff]
    intro x hx
    simp only [decide_eq_false_iff_not]
    rintro rfl
    exact h hx
  simp only [objectSpan, hf]

/-- One loop iteration in which generation parses, the reflection
answer is keyword-free, and verification passes: the loop returns the
plan at this attempt. -/
theorem loopAux_success_now (env : APRVEnv) (maxA fuel attempt : Nat)
    (lastErr : Option String) (logs : List PhaseLog) (t : String) (pl : Json) (resp : String)
    (ht : env.planCall attempt (buildUserPrompt env.intake lastErr) = .ok t)
    (hx : extractJSON t = some pl)
    (hr : env.reflectCall attempt (buildReflectionPrompt env.intake pl) = .ok resp)
    (hflat : reflectHasIssues resp = false)
    (hv : (validateAgainstSchema pl env.required).valid = true) :
    loopAux env maxA (fuel + 1) attempt lastErr logs =
      { result := .ok pl,
        logs := logs ++
          [{ phase := "analyze", status := "success",
             details := "Starting generation with Claude API" },
           { phase := "plan", status := "success", details := "Generated plan" },
           { phase := "reflect", status := "success", details := "No issues found" },
           { phase := "verify", status := "success", details := "Schema validation passed" },
           { phase := "verify", status := "success", details := "Schema validation passed" }],
        attempts := attempt + 1 } := by
  simp [loopAux, analyzePlanPhase, reflectPhase, verifyPhase, ht, hx, hr, hflat, hv]

/-- One loop iteration in which generation parses but validation (or
the reflection heuristic) rejects, below the attempt bound: the loop
recurses into the next attempt with a repair message, having logged
exactly one more Generate (`plan`) phase. -/
theorem loopAux_invalid_step (env : APRVEnv) (maxA fuel attempt : Nat)
    (lastErr : Option String) (logs : List PhaseLog)
    (hlt : attempt < maxA)
    (H : ∀ prompt, ∃ t pl, env.planCall attempt prompt = .ok t ∧
      extractJSON t = some pl ∧ (validateAgainstSchema pl env.required).valid = false) :
    ∃ err' logs', loopAux env maxA (fuel + 1) attempt lastErr logs =
        loopAux env maxA fuel (attempt + 1) (some err') logs' ∧
      countPhase logs' "plan" = countPhase logs "plan" + 1 := by
  obtain ⟨t, pl, ht, hx, hv⟩ := H (buildUserPrompt env.intake lastErr)
  rcases hrc : env.reflectCall attempt (buildReflectionPrompt env.intake pl) with e | resp
  · refine ⟨"Schema validation errors: " ++
        formatValidationErrors (validateAgainstSchema pl env.required).errors,
      logs ++
        [{ phase := "analyze", status := "success",
           details := "Starting generation with Claude API" },
         { phase := "plan", status := "success", details := "Generated plan" },
         { phase := "reflect", status := "warning",
           details := "Reflection failed: " ++ e ++ ". Continuing..." },
         { phase := "verify", status := "failure",
           details := "Schema validation failed: "
             ++ toString (validateAgainstSchema pl env.required).errors.length ++ " errors" },
         { phase := "verify", status := "warning",
           details := "Schema validation failed: "
             ++ toString (validateAgainstSchema pl env.required).errors.length
             ++ " errors. Attempting repair..." }], ?_, ?_⟩
    · simp [loopAux, analyzePlanPhase, reflectPhase, verifyPhase, ht, hx, hrc, hv, hlt]
    · simp [countPhase_append, countPhase]
  · by_cases hri : reflectHasIssues resp = true
    · refine ⟨"Reflection issues: " ++ String.intercalate "; " [resp.take 200],
        logs ++
          [{ phase := "analyze", status := "success",
             details := "Starting generation with Claude API" },
           { phase := "plan", status := "success", details := "Generated plan" },
           { phase := "reflect", status := "warning", details := "Issues found" },
           { phase := "reflect", status := "warning",
             details := "Issues identified: " ++ String.intercalate ", " [resp.take 200] }],
        ?_, ?_⟩
      · simp [loopAux, analyzePlanPhase, reflectPhase, verifyPhase, ht, hx, hrc, hri, hlt]
      · simp [countPhase_append, countPhase]
    · refine ⟨"Schema validation errors: " ++
          formatValidationErrors (validateAgainstSchema pl env.required).errors,
        logs ++
          [{ phase := "analyze", status := "success",
             details := "Starting generation with Claude API" },
           { phase := "plan", status := "success", details := "Generated plan" },
           { phase := "reflect", status := "success", details := "No issues found" },
           { phase := "verify", status := "failure",
             details := "Schema validation failed: "
               ++ toString (validateAgainstSchema pl env.required).errors.length ++ " errors" },
           { phase := "verify", status := "warning",
             details := "Schema validation failed: "
               ++ toString (validateAgainstSchema pl env.required).errors.length
               ++ " errors. Attempting repair..." }], ?_, ?_⟩
      · simp [loopAux, analyzePlanPhase, reflectPhase, verifyPhase, ht, hx, hrc, hv, hlt, hri]
      · simp [countPhase_append, countPhase]

/-- The final loop iteration under a failing validator: the loop throws
the formatted schema-validation failure, with one more Generate phase
logged. -/
theorem loopAux_invalid_final (env : APRVEnv) (maxA fuel attempt : Nat)
    (lastErr : Option String) (logs : List PhaseLog)
    (hge : maxA ≤ attempt)
    (H : ∀ prompt, ∃ t pl, env.planCall attempt prompt = .ok t ∧
      extractJSON t = some pl ∧ (validateAgainstSchema pl env.required).valid = false) :
    ∃ fmt logs', loopAux env maxA (fuel + 1) attempt lastErr logs =
        { result := .error ("Schema validation failed: " ++ fmt),
          logs := logs', attempts := attempt + 1 } ∧
      countPhase logs' "plan" = countPhase logs "plan" + 1 := by
  obtain ⟨t, pl, ht, hx, hv⟩ := H (buildUserPrompt env.intake lastErr)
  have hnlt : ¬ attempt < maxA := by omega
  rcases hrc : env.reflectCall attempt (buildReflectionPrompt env.intake pl) with e | resp
  · refine ⟨formatValidationErrors (validateAgainstSchema pl env.required).errors,
      logs ++
        [{ phase := "analyze", status := "success",
           details := "Starting generation with Claude API" },
         { phase := "plan", status := "success", details := "Generated plan" },
         { phase := "reflect", status := "warning",
           details := "Reflection failed: " ++ e ++ ". Continuing..." },
         { phase := "verify", status := "failure",
           details := "Schema validation failed: "
             ++ toString (validateAgainstSchema pl env.required).errors.length ++ " errors" },
         { phase := "verify", status := "failure",
           details := "Schema validation failed after max repair attempts" }], ?_, ?_⟩
    · simp [loopAux, analyzePlanPhase, reflectPhase, verifyPhase, ht, hx, hrc, hv, hnlt]
    · simp [countPhase_append, countPhase]
  · by_cases hri : reflectHasIssues resp = true
    · refine ⟨formatValidationErrors (validateAgainstSchema pl env.required).errors,
        logs ++
          [{ phase := "analyze", status := "success",
             details := "Starting generation with Claude API" },
           { phase := "plan", status := "success", details := "Generated plan" },
           { phase := "reflect", status := "warning", details := "Issues found" },
           { phase := "verify", status := "failure",
             details := "Schema validation failed: "
               ++ toString (validateAgainstSchema pl env.required).errors.length ++ " errors" },
           { phase := "verify", status := "failure",
             details := "Schema validation failed after max repair attempts" }], ?_, ?_⟩
      · simp [loopAux, analyzePlanPhase, reflectPhase, verifyPhase, ht, hx, hrc, hv, hnlt, hri]
      · simp [countPhase_append, countPhase]
    · refine ⟨formatValidationErrors (validateAgainstSchema pl env.required).errors,
        logs ++
          [{ phase := "analyze", status := "success",
             details := "Starting generation with Claude API" },
           { phase := "plan", status := "success", details := "Generated plan" },
           { phase := "reflect", status := "success", details := "No issues found" },
           { phase := "verify", status := "failure",
             details := "Schema validation failed: "
               ++ toString (validateAgainstSchema pl env.required).errors.length ++ " errors" },
           { phase := "verify", status := "failure",
             details := "Schema validation failed after max repair attempts" }], ?_, ?_⟩
      · simp [loopAux, analyzePlanPhase, reflectPhase, verifyPhase, ht, hx, hrc, hv, hnlt, hri]
      · simp [countPhase_append, countPhase]

/-- Every required field of an object shape that the candidate lacks
contributes its own `Required` issue to the collected list —
validation does not stop at the first missing field. -/
theorem runFields_required_mem (fields : List ZField) (path : List PathItem)
    (fs : List (String × Json)) (name : String) (p : ZP)
    (hmem : (name, ZMode.req, p) ∈ fields) (habs : jlookup fs name = none) :
    ({ path := path ++ [.key name], message := "Required" } : ZIssue) ∈
      (runFields fields path fs).1 := by
  induction fields with
  | nil => cases hmem
  | cons f rest ih =>
      obtain ⟨fname, fmode, fp⟩ := f
      rcases List.mem_cons.mp hmem with heq | htl
      · rw [← heq]
        simp only [runFields, habs]
        exact List.mem_cons_self _ _
      · have hin := ih htl
        simp only [runFields]
        rcases hlk : jlookup fs fname with _ | v
        · cases fmode with
          | req => exact List.mem_cons_of_mem _ hin
          | opt => exact hin
          | dflt d => exact hin
        · exact List.mem_append_right _ hin

/-! ### Association-list and canonical-form lemmas for the round-trip
theorem -/

theorem canonFields_eq_map (l : List (String × Json)) :
    Json.canonFields l = l.map (fun kv => (kv.1, Json.canon kv.2)) := by
  induction l with
  | nil => rfl
  | cons kv tl ih => cases kv; simp [Json.canonFields, ih]

theorem keys_canonFields (l : List (String × Json)) :
    (Json.canonFields l).map Prod.fst = l.map Prod.fst := by
  rw [canonFields_eq_map, List.map_map]
  rfl

theorem jlookup_canonFields (l : List (String × Json)) (k : String) :
    jlookup (Json.canonFields l) k = (jlookup l k).map Json.canon := by
  induction l with
  | nil => rfl
  | cons kv tl ih =>
      cases kv with
      | mk k₁ v =>
          by_cases h : k₁ = k <;> simp [Json.canonFields, jlookup, h, ih]

theorem jlookup_mem {l : List (String × Json)} {k : String} {v : Json}
    (h : jlookup l k = some v) : (k, v) ∈ l := by
  induction l with
  | nil => cases h
  | cons kv tl ih =>
      cases kv with
      | mk k₁ v₁ =>
          by_cases he : k₁ = k
          · subst he
            rcases (by simpa [jlookup] using h : v₁ = v) with rfl
            exact List.mem_cons_self _ _
          · simp only [jlookup, if_neg he] at h
            exact List.mem_cons_of_mem _ (ih h)

theorem jlookup_eq_none {l : List (String × Json)} {k : String} :
    jlookup l k = none ↔ k ∉ l.map Prod.fst := by
  induction l with
  | nil => simp [jlookup]
  | cons kv tl ih =>
      cases kv with
      | mk k₁ v₁ =>
          by_cases he : k₁ = k
          · subst he; simp [jlookup]
          · simp [jlookup, he, ih, Ne.symm he]

theorem mem_jlookup {l : List (String × Json)} {k : String} {v : Json}
    (hnd : (l.map Prod.fst).Nodup) (h : (k, v) ∈ l) : jlookup l k = some v := by
  induction l with
  | nil => cases h
  | cons kv tl ih =>
      cases kv with
      | mk k₁ v₁ =>
          simp only [List.map_cons, List.nodup_cons] at hnd
          rcases List.mem_cons.mp h with heq | htl
          · cases heq
            simp [jlookup]
          · have hk : k₁ ≠ k := by
              rintro rfl
              exact hnd.1 (List.mem_map.mpr ⟨_, htl, rfl⟩)
            simp [jlookup, hk, ih hnd.2 htl]

theorem perm_jlookup {l l' : List (String × Json)}
    (hp : l.Perm l') (hnd : (l.map Prod.fst).Nodup) (k : String) :
    jlookup l k = jlookup l' k := by
  have hnd' : (l'.map Prod.fst).Nodup := ((hp.map Prod.fst).nodup_iff).mp hnd
  rcases hl : jlookup l k with _ | v
  · rcases hl' : jlookup l' k with _ | v'
    · rfl
    · exfalso
      have := jlookup_mem hl'
      have hin : (k, v') ∈ l := hp.mem_iff.mpr this
      rw [mem_jlookup hnd hin] at hl
      cases hl
  · have := jlookup_mem hl
    exact (mem_jlookup hnd' (hp.mem_iff.mp this)).symm

theorem strLeB_refl : ∀ l : List Char, strLeB l l = true
  | [] => rfl
  | a :: as => by simp [strLeB, strLeB_refl as]

theorem char_toNat_inj {a b : Char} (h : a.toNat = b.toNat) : a = b := by
  cases a; cases b; simp [Char.toNat] at h; congr 1; exact UInt32.ext h

theorem strLeB_antisymm : ∀ l₁ l₂ : List Char,
    strLeB l₁ l₂ = true → strLeB l₂ l₁ = true → l₁ = l₂
  | [], [], _, _ => rfl
  | [], _ :: _, _, h₂ => by simp [strLeB] at h₂
  | _ :: _, [], h₁, _ => by simp [strLeB] at h₁
  | a :: as, b :: bs, h₁, h₂ => by
      by_cases hab : a.toNat < b.toNat
      · simp [strLeB, hab, show ¬ b.toNat < a.toNat from by omega] at h₂
      · by_cases hba : b.toNat < a.toNat
        · simp [strLeB, hab, hba] at h₁
        · simp only [strLeB, if_neg hab, if_neg hba] at h₁
          simp only [strLeB, if_neg hba, if_neg hab] at h₂
          have heq : a = b := char_toNat_inj (by omega)
          rw [heq, strLeB_antisymm as bs h₁ h₂]

theorem strLeB_key_eq {k₁ k₂ : String}
    (h₁ : strLeB k₁.data k₂.data = true) (h₂ : strLeB k₂.data k₁.data = true) :
    k₁ = k₂ := by
  cases k₁; cases k₂
  exact congrArg String.mk (strLeB_antisymm _ _ h₁ h₂)

/-- Two sorted association lists without duplicate keys and with the
same lookup function are equal. -/
theorem sorted_lookup_ext :
    ∀ (l₁ l₂ : List (String × Json)), List.Sorted fieldLe l₁ → List.Sorted fieldLe l₂ →
    (l₁.map Prod.fst).Nodup → (l₂.map Prod.fst).Nodup →
    (∀ k, jlookup l₁ k = jlookup l₂ k) → l₁ = l₂
  | [], [], _, _, _, _, _ => rfl
  | [], (k₂, v₂) :: t₂, _, _, _, _, hlk => by
      have := hlk k₂
      simp [jlookup] at this
  | (k₁, v₁) :: t₁, [], _, _, _, _, hlk => by
      have := hlk k₁
      simp [jlookup] at this
  | (k₁, v₁) :: t₁, (k₂, v₂) :: t₂, hs₁, hs₂, hn₁, hn₂, hlk => by
      have h₁ : jlookup ((k₂, v₂) :: t₂) k₁ = some v₁ := by
        rw [← hlk k₁]; simp [jlookup]
      have h₂ : jlookup ((k₁, v₁) :: t₁) k₂ = some v₂ := by
        rw [hlk k₂]; simp [jlookup]
      have hk12 : strLeB k₂.data k₁.data = true := by
        rcases List.mem_cons.mp (jlookup_mem h₁) with heq | htl
        · cases heq; exact strLeB_refl _
        · exact List.rel_of_sorted_cons hs₂ _ htl
      have hk21 : strLeB k₁.data k₂.data = true := by
        rcases List.mem_cons.mp (jlookup_mem h₂) with heq | htl
        · cases heq; exact strLeB_refl _
        · exact List.rel_of_sorted_cons hs₁ _ htl
      have hkeq : k₁ = k₂ := strLeB_key_eq hk21 hk12
      subst hkeq
      have hveq : v₂ = v₁ := by
        simpa [jlookup] using h₁
      subst hveq
      rw [List.map_cons] at hn₁ hn₂
      have hn₁' := List.nodup_cons.mp hn₁
      have hn₂' := List.nodup_cons.mp hn₂
      have htail : ∀ k, jlookup t₁ k = jlookup t₂ k := by
        intro k
        by_cases hk : k = k₁
        · subst hk
          rw [jlookup_eq_none.mpr hn₁'.1, jlookup_eq_none.mpr hn₂'.1]
        · have h := hlk k
          simpa [jlookup, Ne.symm hk] using h
      rw [sorted_lookup_ext t₁ t₂ hs₁.of_cons hs₂.of_cons hn₁'.2 hn₂'.2 htail]

/-- The keys of a parsed object output form a sublist of the declared
field names. -/
theorem runFields_keys_sublist (fields : List ZField) (path : List PathItem)
    (fs : List (String × Json)) :
    ((runFields fields path fs).2.map Prod.fst).Sublist
      (fields.map (fun f => f.1)) := by
  induction fields with
  | nil => simp [runFields]
  | cons f rest ih =>
      obtain ⟨name, mode, p⟩ := f
      rcases hlk : jlookup fs name with _ | v
      · cases mode with
        | req => simp only [runFields, hlk]; exact ih.cons _
        | opt => simp only [runFields, hlk]; exact ih.cons _
        | dflt d => simp only [runFields, hlk, List.map_cons]; exact ih.cons₂ _
      · simp only [runFields, hlk, List.map_cons]; exact ih.cons₂ _

/-- Undeclared keys are absent from the parse output. -/
theorem runFields_lookup_none (fields : List ZField) (path : List PathItem)
    (fs : List (String × Json)) (k : String)
    (hk : k ∉ fields.map (fun f => f.1)) :
    jlookup (runFields fields path fs).2 k = none := by
  rw [jlookup_eq_none]
  intro hmem
  exact hk ((runFields_keys_sublist fields path fs).subset hmem)

/-- For a declared key, a clean parse maps the candidate's value (or
skips an absent optional field) without changing the denoted value. -/
theorem runFields_lookup_canon (fields : List ZField) (path : List PathItem)
    (fs : List (String × Json))
    (hnodup : (fields.map (fun f => f.1)).Nodup)
    (hiss : (runFields fields path fs).1 = [])
    (htight : fieldsTight fields fs = true)
    (hsound : ∀ f ∈ fields, Sound f.2.2)
    (k : String) (hk : k ∈ fields.map (fun f => f.1)) :
    (jlookup (runFields fields path fs).2 k).map Json.canon =
      (jlookup fs k).map Json.canon := by
  induction fields with
  | nil => cases hk
  | cons f rest ih =>
      obtain ⟨name, mode, p⟩ := f
      rw [List.map_cons] at hnodup
      have hnd := List.nodup_cons.mp hnodup
      have hts := (Bool.and_eq_true _ _).mp (by simpa [fieldsTight] using htight)
      have hsound_rest : ∀ f ∈ rest, Sound f.2.2 :=
        fun f hf => hsound f (List.mem_cons_of_mem _ hf)
      rcases hlk : jlookup fs name with _ | v
      · cases mode with
        | req =>
            exfalso
            simp only [runFields, hlk] at hiss
            exact List.cons_ne_nil _ _ hiss
        | opt =>
            simp only [runFields, hlk] at hiss ⊢
            by_cases hkn : k = name
            · subst hkn
              rw [runFields_lookup_none rest path fs k hnd.1, hlk]
            · exact ih hnd.2 hiss hts.2 hsound_rest
                (by rcases List.mem_cons.mp hk with h | h; exact absurd h hkn; exact h)
        | dflt d =>
            exfalso
            rw [hlk] at hts
            simpa [ZMode.absentOk] using hts.1
      · simp only [runFields, hlk] at hiss ⊢
        have hsplit := List.append_eq_nil.mp hiss
        by_cases hkn : k = name
        · subst hkn
          rw [hlk]
          simp only [jlookup, if_pos rfl]
          have hs := hsound _ (List.mem_cons_self _ _)
          rw [hlk] at hts
          exact congrArg some (hs (path ++ [.key k]) v hsplit.1 hts.1)
        · simp only [jlookup, if_neg (Ne.symm hkn)]
          exact ih hnd.2 hsplit.2 hts.2 hsound_rest
            (by rcases List.mem_cons.mp hk with h | h; exact absurd h hkn; exact h)

theorem sound_zprim (check : Json → List String) : Sound (zprim check) :=
  fun _ _ _ _ => rfl

theorem runElems_canon (elem : ZP) (hs : Sound elem) (path : List PathItem) :
    ∀ (es : List Json) (i : Nat), (runElems elem path i es).1 = [] →
    es.all elem.tight = true →
    Json.canonList (runElems elem path i es).2 = Json.canonList es := by
  intro es
  induction es with
  | nil => intro i _ _; rfl
  | cons e tl ih =>
      intro i hiss htight
      simp only [runElems] at hiss ⊢
      have hsplit := List.append_eq_nil.mp hiss
      rw [List.all_cons] at htight
      have ht := (Bool.and_eq_true _ _).mp htight
      simp only [Json.canonList]
      rw [hs (path ++ [PathItem.idx i]) e hsplit.1 ht.1, ih (i + 1) hsplit.2 ht.2]

theorem sound_zarray (minLen : Nat) (elem : ZP) (hs : Sound elem) :
    Sound (zarray minLen elem) := by
  intro path j hiss htight
  cases j with
  | arr es =>
      simp only [zarray] at hiss htight ⊢
      have hsplit := List.append_eq_nil.mp hiss
      simp only [Json.canon]
      rw [runElems_canon elem hs path es 0 hsplit.2 htight]
  | null => simp [zarray] at hiss
  | bool b => simp [zarray] at hiss
  | num q => simp [zarray] at hiss
  | str s => simp [zarray] at hiss
  | obj fs => simp [zarray] at hiss

theorem nodupKeysB_nodup : ∀ (l : List (String × Json)), nodupKeysB l = true →
    (l.map Prod.fst).Nodup
  | [], _ => by simp
  | (k, v) :: tl, h => by
      rw [nodupKeysB, Bool.and_eq_true] at h
      simp only [List.map_cons, List.nodup_cons]
      refine ⟨?_, nodupKeysB_nodup tl h.2⟩
      intro hmem
      obtain ⟨⟨k', v'⟩, hm, hk⟩ := List.mem_map.mp hmem
      have h1 : tl.any (fun f => decide (f.1 = k)) = false := by simpa using h.1
      rw [List.any_eq_false] at h1
      have h2 := h1 _ hm
      simp only [decide_eq_false_iff_not] at h2
      exact h2 (by simpa using hk)

theorem sound_zobj (fields : List ZField)
    (hnodup : (fields.map (fun f => f.1)).Nodup)
    (hsound : ∀ f ∈ fields, Sound f.2.2) : Sound (zobj fields) := by
  intro path j hiss htight
  cases j with
  | obj fs =>
      simp only [zobj] at hiss htight ⊢
      have ht1 := (Bool.and_eq_true _ _).mp htight
      have ht2 := (Bool.and_eq_true _ _).mp ht1.1
      have hknd : (fs.map Prod.fst).Nodup := nodupKeysB_nodup fs ht2.1
      have hsub : ∀ k, k ∈ fs.map Prod.fst → k ∈ fields.map (fun f => f.1) := by
        intro k hmem
        obtain ⟨⟨k', v'⟩, hmem', hk'⟩ := List.mem_map.mp hmem
        have hall := ht2.2
        rw [List.all_eq_true] at hall
        have := hall _ hmem'
        rw [List.any_eq_true] at this
        obtain ⟨g, hg, hgk⟩ := this
        subst hk'
        exact List.mem_map.mpr ⟨g, hg, by simpa using hgk⟩
      have houtnd : ((runFields fields path fs).2.map Prod.fst).Nodup :=
        (runFields_keys_sublist fields path fs).nodup hnodup
      have hlkeq : ∀ k, jlookup (Json.canonFields (runFields fields path fs).2) k =
          jlookup (Json.canonFields fs) k := by
        intro k
        rw [jlookup_canonFields, jlookup_canonFields]
        by_cases hk : k ∈ fields.map (fun f => f.1)
        · exact runFields_lookup_canon fields path fs hnodup hiss ht1.2 hsound k hk
        · rw [runFields_lookup_none fields path fs k hk]
          rcases hfs : jlookup fs k with _ | v
          · rfl
          · exact absurd (hsub k (List.mem_map.mpr ⟨_, jlookup_mem hfs, rfl⟩)) hk
      simp only [Json.canon]
      congr 1
      apply sorted_lookup_ext
      · exact List.sorted_insertionSort fieldLe _
      · exact List.sorted_insertionSort fieldLe _
      · rw [(((List.perm_insertionSort fieldLe _).map Prod.fst).nodup_iff)]
        rw [keys_canonFields]
        exact houtnd
      · rw [(((List.perm_insertionSort fieldLe _).map Prod.fst).nodup_iff)]
        rw [keys_canonFields]
        exact hknd
      · intro k
        have hnd₁ : ((List.insertionSort fieldLe
            (Json.canonFields (runFields fields path fs).2)).map Prod.fst).Nodup := by
          rw [(((List.perm_insertionSort fieldLe _).map Prod.fst).nodup_iff)]
          rw [keys_canonFields]
          exact houtnd
        rw [perm_jlookup (List.perm_insertionSort fieldLe _) hnd₁ k, hlkeq k]
        have hnd₂ : ((Json.canonFields fs).map Prod.fst).Nodup := by
          rw [keys_canonFields]; exact hknd
        rw [perm_jlookup (List.perm_insertionSort fieldLe _)
          (by rw [(((List.perm_insertionSort fieldLe _).map Prod.fst).nodup_iff)]; exact hnd₂) k]
  | null => simp [zobj] at hiss
  | bool b => simp [zobj] at hiss
  | num q => simp [zobj] at hiss
  | str s => simp [zobj] at hiss
  | arr es => simp [zobj] at hiss

mutual

theorem Json.beq_refl : ∀ a : Json, Json.beq a a = true
  | .null => rfl
  | .bool b => by simp [Json.beq]
  | .num q => by simp [Json.beq]
  | .str s => by simp [Json.beq]
  | .arr es => by simpa [Json.beq] using Json.beqList_refl es
  | .obj fs => by simpa [Json.beq] using Json.beqFields_refl fs

theorem Json.beqList_refl : ∀ l : List Json, Json.beqList l l = true
  | [] => rfl
  | x :: xs => by simp [Json.beqList, Json.beq_refl x, Json.beqList_refl xs]

theorem Json.beqFields_refl : ∀ l : List (String × Json), Json.beqFields l l = true
  | [] => rfl
  | (k, v) :: xs => by simp [Json.beqFields, Json.beq_refl v, Json.beqFields_refl xs]

end

/-! ### Soundness of each schema of `lib/schema-validator.ts` -/

theorem sound_Metadata : Sound MetadataSchema := by
  unfold MetadataSchema
  refine sound_zobj _ (by decide) ?_
  intro f hf
  fin_cases hf <;> exact sound_zprim _

theorem sound_Qualification : Sound QualificationSchema := by
  unfold QualificationSchema
  refine sound_zobj _ (by decide) ?_
  intro f hf
  fin_cases hf <;> exact sound_zprim _

theorem sound_Duration : Sound DurationSchema := by
  unfold DurationSchema
  refine sound_zobj _ (by decide) ?_
  intro f hf
  fin_cases hf <;> exact sound_zprim _

theorem sound_TrainerDetails : Sound TrainerDetailsSchema := by
  unfold TrainerDetailsSchema
  refine sound_zobj _ (by decide) ?_
  intro f hf
  fin_cases hf <;>
    first
      | exact sound_zprim _
      | exact sound_zarray _ _ (sound_zprim _)

theorem sound_Meta : Sound MetaSchema := by
  unfold MetaSchema
  refine sound_zobj _ (by decide) ?_
  intro f hf
  fin_cases hf <;>
    first
      | exact sound_zprim _
      | exact sound_Qualification
      | exact sound_Duration
      | exact sound_TrainerDetails
      | exact sound_zobj _ (by decide)
          (by intro g hg; fin_cases hg <;> exact sound_zprim _)

theorem sound_Activity : Sound ActivitySchema := by
  unfold ActivitySchema
  refine sound_zobj _ (by decide) ?_
  intro f hf
  fin_cases hf <;>
    first
      | exact sound_zprim _
      | exact sound_zarray _ _ (sound_zprim _)

theorem sound_Assessment : Sound AssessmentSchema := by
  unfold AssessmentSchema
  refine sound_zobj _ (by decide) ?_
  intro f hf
  fin_cases hf <;>
    first
      | exact sound_zprim _
      | exact sound_zarray _ _ (sound_zprim _)

theorem sound_WeeklyPlan : Sound WeeklyPlanSchema := by
  unfold WeeklyPlanSchema
  refine sound_zobj _ (by decide) ?_
  intro f hf
  fin_cases hf <;>
    first
      | exact sound_zprim _
      | exact sound_zarray _ _ (sound_zprim _)
      | exact sound_zarray _ _ sound_Activity
      | exact sound_zarray _ _ sound_Assessment

theorem sound_Unit : Sound UnitSchema := by
  unfold UnitSchema
  refine sound_zobj _ (by decide) ?_
  intro f hf
  fin_cases hf <;>
    first
      | exact sound_zprim _
      | exact sound_zarray _ _ (sound_zprim _)
      | exact sound_zarray _ _ (sound_zobj _ (by decide)
          (by intro g hg; fin_cases hg <;> exact sound_zprim _))

theorem sound_Resources : Sound ResourcesSchema := by
  unfold ResourcesSchema
  refine sound_zobj _ (by decide) ?_
  intro f hf
  fin_cases hf <;> exact sound_zarray _ _ (sound_zprim _)

theorem sound_Risk : Sound RiskSchema := by
  unfold RiskSchema
  refine sound_zobj _ (by decide) ?_
  intro f hf
  fin_cases hf <;> exact sound_zprim _

theorem sound_Assumption : Sound AssumptionSchema := by
  unfold AssumptionSchema
  refine sound_zobj _ (by decide) ?_
  intro f hf
  fin_cases hf <;> exact sound_zprim _

theorem sound_ComplianceNotes : Sound ComplianceNotesSchema := by
  unfold ComplianceNotesSchema
  refine sound_zobj _ (by decide) ?_
  intro f hf
  fin_cases hf <;> exact sound_zprim _

theorem sound_GeneratedPlan : Sound GeneratedPlanSchema := by
  unfold GeneratedPlanSchema
  refine sound_zobj _ (by decide) ?_
  intro f hf
  fin_cases hf <;>
    first
      | exact sound_zprim _
      | exact sound_Metadata
      | exact sound_Meta
      | exact sound_zarray _ _ sound_WeeklyPlan
      | exact sound_zarray _ _ sound_Unit
      | exact sound_Resources
      | exact sound_zarray _ _ sound_Risk
      | exact sound_zarray _ _ sound_Assumption
      | exact sound_ComplianceNotes

/-! ## Claim theorems -/

/-- C2: an operation failing on every invocation with a retryable error
is invoked exactly 4 times (1 initial + 3 retries) by the retry wrapper
at its default `maxRetries = 3`, with a backoff sleep between
consecutive invocations, and the wrapper ends by throwing the formatted
error of the last failure — it never returns normally. -/
theorem c2_retry_bound {α : Type} (op : Nat → Except JsError α) (f : Nat → JsError)
    (hop : ∀ i, op i = .error (f i)) (hr : ∀ i, isRetryableError (f i) = true) :
    executeWithRetry DEFAULT_RETRY_CONFIG op =
      { result := .error (formatError (f 3)), invocations := 4, sleeps := 3 } := by
  simp [executeWithRetry, DEFAULT_RETRY_CONFIG, executeWithRetryAux,
    hop 0, hop 1, hop 2, hop 3, hr 0, hr 1, hr 2, hr 3]

/-- C2 witness: a transport answering 503 forever is invoked 4 times
and the wrapper throws the translated transient-error exception. -/
theorem c2_retry_bound_witness :
    executeWithRetry DEFAULT_RETRY_CONFIG
        (fun _ => (.error (.api (some 503) "overloaded") : Except JsError Unit)) =
      { result := .error { message := "Anthropic service is temporarily unavailable. Please try again later.",
                           statusCode := some 503 },
        invocations := 4, sleeps := 3 } := by
  have h := c2_retry_bound (fun _ => (.error (.api (some 503) "overloaded") : Except JsError Unit))
    (fun _ => .api (some 503) "overloaded") (fun _ => rfl) (fun _ => rfl)
  simpa using h

/-- C8 counterexample: a 400-status API error is non-retryable and
fails immediately, but the thrown exception carries the provider's raw
message verbatim, not a translated user-facing message. -/
theorem c8_counterexample :
    executeWithRetry DEFAULT_RETRY_CONFIG
        (fun _ => (.error (.api (some 400) "raw provider error body") : Except JsError Unit)) =
      { result := .error { message := "raw provider error body", statusCode := some 400 },
        invocations := 1, sleeps := 0 } := rfl

/-- C8 (amended): retryable exactly at API-error statuses 429, 408,
503, 504 or 5xx; every non-retryable error fails on the first
invocation with no backoff sleep, wrapped by `formatError`; the wrapped
message is the translated text for statuses 401 and 403, while any
other non-translated status keeps the provider's own non-empty message
verbatim. -/
theorem c8_error_classification {α : Type} :
    (∀ e, isRetryableError e = true ↔
      ∃ s m, e = .api (some s) m ∧
        (s = 429 ∨ s = 408 ∨ s = 503 ∨ s = 504 ∨ (500 ≤ s ∧ s < 600))) ∧
    (∀ (op : Nat → Except JsError α) e, op 0 = .error e → isRetryableError e = false →
      executeWithRetry DEFAULT_RETRY_CONFIG op =
        { result := .error (formatError e), invocations := 1, sleeps := 0 }) ∧
    (formatError (.api (some 401) "raw auth failure")).message =
      "Invalid API key. Please check your ANTHROPIC_API_KEY environment variable." ∧
    (formatError (.api (some 403) "raw forbidden")).message =
      "Access forbidden. Your API key may not have the required permissions." ∧
    (∀ s m, ¬ (s = 401 ∨ s = 403 ∨ s = 429 ∨ s = 500 ∨ s = 502 ∨ s = 503 ∨ s = 504) →
      m ≠ "" → (formatError (.api (some s) m)).message = m) := by
  refine ⟨?_, ?_, rfl, rfl, ?_⟩
  · intro e
    cases e with
    | api st m =>
        cases st with
        | none => simp [isRetryableError]
        | some s =>
            simp only [isRetryableError, Bool.or_eq_true, beq_iff_eq,
              Bool.and_eq_true, decide_eq_true_eq]
            constructor
            · rintro h
              exact ⟨s, m, rfl, by omega⟩
            · rintro ⟨s', m', heq, h⟩
              cases heq
              omega
    | other m =>
        simp only [isRetryableError]
        constructor
        · intro h; cases h
        · rintro ⟨s', m', heq, h⟩; cases heq
  · intro op e h0 hnr
    simp [executeWithRetry, DEFAULT_RETRY_CONFIG, executeWithRetryAux, h0, hnr]
  · intro s m hs hm
    push_neg at hs
    obtain ⟨h1, h2, h3, h4, h5, h6, h7⟩ := hs
    simp [formatError, getUserFriendlyErrorMessage, h1, h2, h3, h4, h5, h6, h7, hm]

/-- C8 witness: a 422-status error fails on the first invocation, with
no sleep, carrying the raw provider message. -/
theorem c8_error_classification_witness :
    executeWithRetry DEFAULT_RETRY_CONFIG
        (fun _ => (.error (.api (some 422) "unprocessable entity") : Except JsError Unit)) =
      { result := .error { message := "unprocessable entity", statusCode := some 422 },
        invocations := 1, sleeps := 0 } := by
  have h := (c8_error_classification (α := Unit)).2.1
    (fun _ => .error (.api (some 422) "unprocessable entity"))
    (.api (some 422) "unprocessable entity") rfl rfl
  simpa using h

/-- C5: the Zod validator and the orchestrator's verify-phase check
disagree: a plan whose unit code violates the upper-case pattern passes
`validateAgainstSchema` (with the plan's five mandatory top-level
sections required) but is rejected by `validatePlan`, so the two rule
sets are not equivalent as predicates. -/
theorem c5_validator_divergence :
    (validateAgainstSchema planBadUnitCode req5).valid = true ∧
    (validatePlan planBadUnitCode).success = false := by
  exact ⟨rfl, rfl⟩

/-- C3 counterexample: on JSON embedded in prose with a stray closing
brace after it, the source's extraction returns null, while the
spec's first-balanced-span extraction succeeds — the implemented
mechanism is not a balanced-span scan. -/
theorem c3_counterexample :
    extractJSON "\x7b\"a\":1\x7d x \x7d" = none ∧
    extractFirstBalanced "\x7b\"a\":1\x7d x \x7d" = some (.obj [("a", .num 1)]) :=
  ⟨rfl, rfl⟩

/-- C3 (amended): extraction succeeds on pure JSON and on labelled
fenced blocks, and returns null (never an exception — it is a total
function into an option) when nothing parses, e.g. on brace-free text
that is not itself JSON; for JSON embedded in prose it parses the
greedy span from the first opening to the last closing brace, which
succeeds for a single embedded object with no stray braces and yields
null when later braces corrupt the span. -/
theorem c3_extraction :
    (∀ t v, jsonParse t = some v → extractJSON t = some v) ∧
    extractJSON "Here is the plan:\n```json\n\x7b\"a\":1\x7d\n```\nThanks" =
      some (.obj [("a", .num 1)]) ∧
    (∀ t, jsonParse t = none → '{' ∉ t.data → extractJSON t = none) ∧
    extractJSON "Here \x7b\"a\":1\x7d end" = some (.obj [("a", .num 1)]) ∧
    extractJSON "x \x7b\"a\":1\x7d y \x7b\"b\":2\x7d z" = none := by
  refine ⟨?_, rfl, ?_, rfl, rfl⟩
  · intro t v h
    simp [extractJSON, h]
  · intro t h1 h2
    simp only [extractJSON, h1, cbScan_none_of_no_brace _ _ h2,
      objectSpan_none_of_no_brace _ h2]

/-- C3 witness: pure JSON extraction at a concrete input, and the null
result on concrete brace-free prose. -/
theorem c3_extraction_witness :
    extractJSON "3" = some (.num 3) ∧ extractJSON "plain prose" = none :=
  ⟨c3_extraction.1 "3" (.num 3) rfl,
   c3_extraction.2.2.1 "plain prose" rfl (by decide)⟩

set_option maxRecDepth 10000 in
/-- C4: `validatePlan` returns the validated data exactly on zero
issues and otherwise the non-empty rendered issue list with no data
object at all; validation is non-short-circuiting: every missing
required top-level section is reported with its own path, and a
candidate with three independent violations receives all three, each
path naming the offending field. -/
theorem c4_validator_contract :
    (∀ c, ((validatePlan c).success = true →
        (validatePlan c).data.isSome = true ∧ (validatePlan c).errors = none) ∧
      ((validatePlan c).success = false →
        (validatePlan c).data = none ∧
        ∃ es, (validatePlan c).errors = some es ∧ es ≠ [])) ∧
    (∀ (fs : List (String × Json)) name,
      name ∈ ["metadata", "meta", "weekly_plan", "units", "confidence_score"] →
      jlookup fs name = none →
      (name ++ ": Required") ∈ ((validatePlan (.obj fs)).errors.getD [])) ∧
    "meta.cohort_profile: String must contain at least 10 character(s)" ∈
      ((validatePlan planMultiViolation).errors.getD []) ∧
    "units.0.unit_code: Invalid" ∈ ((validatePlan planMultiViolation).errors.getD []) ∧
    "confidence_score: Number too big" ∈
      ((validatePlan planMultiViolation).errors.getD []) := by
  refine ⟨?_, ?_, by decide, by decide, by decide⟩
  · intro c
    constructor
    · intro h
      by_cases he : (GeneratedPlanSchema.run [] c).1.isEmpty
      · simp [validatePlan, he]
      · simp [validatePlan, he] at h
    · intro h
      by_cases he : (GeneratedPlanSchema.run [] c).1.isEmpty
      · simp [validatePlan, he] at h
      · refine ⟨by simp [validatePlan, he],
          (GeneratedPlanSchema.run [] c).1.map
            (fun e => renderPath e.path ++ ": " ++ e.message),
          by simp [validatePlan, he], ?_⟩
        simp only [ne_eq, List.map_eq_nil_iff]
        simpa [List.isEmpty_iff] using he
  · intro fs name hname habs
    have hm : ({ path := [.key name], message := "Required" } : ZIssue) ∈
        (GeneratedPlanSchema.run [] (.obj fs)).1 := by
      rcases (by simpa using hname :
          name = "metadata" ∨ name = "meta" ∨ name = "weekly_plan" ∨
          name = "units" ∨ name = "confidence_score") with rfl | rfl | rfl | rfl | rfl
      · exact runFields_required_mem _ [] fs _ MetadataSchema (by simp [GeneratedPlanSchema]) habs
      · exact runFields_required_mem _ [] fs _ MetaSchema (by simp [GeneratedPlanSchema]) habs
      · exact runFields_required_mem _ [] fs _ (zarray 1 WeeklyPlanSchema)
          (by simp [GeneratedPlanSchema]) habs
      · exact runFields_required_mem _ [] fs _ (zarray 1 UnitSchema)
          (by simp [GeneratedPlanSchema]) habs
      · exact runFields_required_mem _ [] fs _ (zprim (zNum false (some 0) (some 1)))
          (by simp [GeneratedPlanSchema]) habs
    have hne : (GeneratedPlanSchema.run [] (.obj fs)).1.isEmpty = false := by
      rcases hl : (GeneratedPlanSchema.run [] (.obj fs)).1 with _ | ⟨a, tl⟩
      · rw [hl] at hm; cases hm
      · rfl
    have : (name ++ ": Required") ∈
        ((GeneratedPlanSchema.run [] (.obj fs)).1.map
          (fun e => renderPath e.path ++ ": " ++ e.message)) := by
      refine List.mem_map.mpr ⟨_, hm, ?_⟩
      simp [renderPath, PathItem.render, String.intercalate, String.intercalate.go,
        String.append_assoc]
    simpa [validatePlan, hne] using this

set_option maxRecDepth 10000 in
/-- C4 witness: the empty object is missing the `units` section and its
error list reports it at that path. -/
theorem c4_validator_contract_witness :
    ("units: Required") ∈ ((validatePlan (.obj [])).errors.getD []) :=
  c4_validator_contract.2.1 [] "units" (by decide) rfl

set_option maxRecDepth 10000 in
/-- C6 counterexample: a candidate satisfying every declared constraint
but omitting the defaulted `metadata.project_type` and
`metadata.reserved` fields validates with zero issues, yet the returned
data is not identical to the input — Zod fills the defaulted fields
in. -/
theorem c6_counterexample :
    (validatePlan planValidNoDefaults).success = true ∧
    ((validatePlan planValidNoDefaults).data.getD .null).equiv planValidNoDefaults = false ∧
    jget (((validatePlan planValidNoDefaults).data.getD .null).get "metadata")
      "project_type" = some (.str "unit_plan") ∧
    jget (planValidNoDefaults.get "metadata") "project_type" = none := by
  exact ⟨by decide, by decide, rfl, rfl⟩

/-- C6 (amended): for every candidate that satisfies every declared
schema constraint, is free of undeclared and duplicated object fields,
and explicitly supplies the defaulted metadata fields, `validatePlan`
succeeds and its data denotes exactly the input object graph (equal up
to object-field order); in general Zod strips undeclared fields and
fills absent defaulted fields, so the output is not identical to the
input. -/
theorem c6_round_trip (c : Json)
    (htight : GeneratedPlanSchema.tight c = true)
    (hsucc : (validatePlan c).success = true) :
    ∃ d, (validatePlan c).data = some d ∧ Json.equiv d c = true := by
  have hiss : (GeneratedPlanSchema.run [] c).1 = [] := by
    by_cases he : (GeneratedPlanSchema.run [] c).1.isEmpty
    · exact List.isEmpty_iff.mp he
    · simp [validatePlan, he] at hsucc
  refine ⟨(GeneratedPlanSchema.run [] c).2, ?_, ?_⟩
  · simp [validatePlan, hiss]
  · have hcanon := sound_GeneratedPlan [] c hiss htight
    simp only [Json.equiv, hcanon]
    exact Json.beq_refl _

set_option maxRecDepth 10000 in
/-- C6 witness: the tight valid plan round-trips to an equivalent
object. -/
theorem c6_round_trip_witness :
    ∃ d, (validatePlan planValidTight).data = some d ∧
      Json.equiv d planValidTight = true :=
  c6_round_trip planValidTight (by decide) (by decide)

set_option maxRecDepth 10000 in
/-- C7 counterexample: a present `resources.materials` entry is never
serialized into the prompt, and a present class-size object with absent
bounds is rendered with `TBD` placeholders. -/
theorem c7_counterexample :
    jsIncludes (buildUserPrompt intakeC7 none) "Timber stock" = false ∧
    jsIncludes (buildUserPrompt intakeC7 none) "TBD" = true := by
  exact ⟨by decide, by decide⟩

set_option maxRecDepth 10000 in
/-- C7 (amended): for every intake with all optional fields absent the
prompt is a non-empty string containing the four required-field labels;
present optional fields are serialized into labelled lines (venue
shown as representative), except that `resources.materials` is ignored
entirely — the prompt does not depend on it — and a present
`class_size` renders each absent (or zero) bound as the placeholder
`TBD`. -/
theorem c7_prompt_builder :
    (∀ (t cp : String) (w h : Nat) (m : DeliveryMode),
      jsIncludes (buildUserPrompt
        { qualification := { title := t, code := none, level := none },
          duration := { weeks := w, total_hours := h },
          delivery_mode := m, cohort_profile := cp,
          resources := none, assessment_preferences := none, unit_list := none,
          trainer_details := none, start_date := none, venue := none,
          class_size := none } none) "QUALIFICATION" = true ∧
      jsIncludes (buildUserPrompt
        { qualification := { title := t, code := none, level := none },
          duration := { weeks := w, total_hours := h },
          delivery_mode := m, cohort_profile := cp,
          resources := none, assessment_preferences := none, unit_list := none,
          trainer_details := none, start_date := none, venue := none,
          class_size := none } none) "DURATION" = true ∧
      jsIncludes (buildUserPrompt
        { qualification := { title := t, code := none, level := none },
          duration := { weeks := w, total_hours := h },
          delivery_mode := m, cohort_profile := cp,
          resources := none, assessment_preferences := none, unit_list := none,
          trainer_details := none, start_date := none, venue := none,
          class_size := none } none) "DELIVERY MODE" = true ∧
      jsIncludes (buildUserPrompt
        { qualification := { title := t, code := none, level := none },
          duration := { weeks := w, total_hours := h },
          delivery_mode := m, cohort_profile := cp,
          resources := none, assessment_preferences := none, unit_list := none,
          trainer_details := none, start_date := none, venue := none,
          class_size := none } none) "COHORT PROFILE" = true ∧
      buildUserPrompt
        { qualification := { title := t, code := none, level := none },
          duration := { weeks := w, total_hours := h },
          delivery_mode := m, cohort_profile := cp,
          resources := none, assessment_preferences := none, unit_list := none,
          trainer_details := none, start_date := none, venue := none,
          class_size := none } none ≠ "") ∧
    (∀ (intake : IntakeFormData) (r : IntakeResources) (m : Option (List String))
        (pe : Option String), intake.resources = some r →
      buildUserPrompt { intake with resources := some { r with materials := m } } pe =
        buildUserPrompt intake pe) ∧
    (∀ (intake : IntakeFormData) (pe : Option String),
      intake.class_size = some { min := none, max := none, target := none } →
      jsIncludes (buildUserPrompt intake pe)
        "CLASS SIZE: Min TBD, Max TBD, Target TBD" = true) ∧
    (∀ (intake : IntakeFormData) (pe : Option String) (v : String),
      intake.venue = some v → v ≠ "" →
      jsIncludes (buildUserPrompt intake pe) ("VENUE: " ++ v) = true) := by
  refine ⟨?_, ?_, ?_, ?_⟩
  · intro t cp w h m
    refine ⟨?_, ?_, ?_, ?_, ?_⟩
    · simp only [buildUserPrompt, optLine]
      repeat first
        | exact jsIncludes_append_right _ _ _ (by decide)
        | apply jsIncludes_append_left
      decide
    · simp only [buildUserPrompt, optLine]
      repeat first
        | exact jsIncludes_append_right _ _ _ (by decide)
        | apply jsIncludes_append_left
    · simp only [buildUserPrompt, optLine]
      repeat first
        | exact jsIncludes_append_right _ _ _ (by decide)
        | apply jsIncludes_append_left
    · simp only [buildUserPrompt, optLine]
      repeat first
        | exact jsIncludes_append_right _ _ _ (by decide)
        | apply jsIncludes_append_left
    · simp only [buildUserPrompt, optLine]
      exact string_append_ne_empty_right _ _ (by decide)
  · intro intake r m pe h
    obtain ⟨q, d, mo, cp, res, ap, ul, td, sd, ve, cs⟩ := intake
    simp only at h
    subst h
    rfl
  · intro intake pe h
    simp only [buildUserPrompt, optLine, h, tbd]
    repeat first
      | exact jsIncludes_append_right _ _ _ (by decide)
      | apply jsIncludes_append_left
  · intro intake pe v h hv
    simp only [buildUserPrompt, optLine, h]
    rw [if_pos hv]
    apply jsIncludes_append_left
    apply jsIncludes_append_left
    apply jsIncludes_append_left
    apply jsIncludes_append_left
    apply jsIncludes_append_left
    apply jsIncludes_append_left
    apply jsIncludes_append_left
    apply jsIncludes_append_right
    show jsIncludes (("\n" ++ "VENUE: ") ++ v) ("VENUE: " ++ v) = true
    rw [String.append_assoc]
    exact jsIncludes_suffix "\n" ("VENUE: " ++ v)

set_option maxRecDepth 10000 in
/-- C7 witness: the required labels at a concrete intake and the TBD
rendering at the concrete class-size intake. -/
theorem c7_prompt_builder_witness :
    jsIncludes (buildUserPrompt intakeBase none) "QUALIFICATION" = true ∧
    jsIncludes (buildUserPrompt intakeC7 none)
      "CLASS SIZE: Min TBD, Max TBD, Target TBD" = true :=
  ⟨(c7_prompt_builder.1 "Certificate III in Carpentry" "12 adult learners" 2 80
      .face_to_face).1,
   c7_prompt_builder.2.2.1 intakeC7 none rfl⟩

set_option maxRecDepth 10000 in
/-- C1 counterexample: with a validator that fails on every attempt,
the terminal failure result does not carry the issue list: its error
field is the generic quality-standards message produced by
`formatUserError`, and no entry of the attempt log mentions the
missing-field issues either (only an error count). -/
theorem c1_counterexample :
    (generateWithAPRV envAlwaysInvalid (.ok "sys")).success = false ∧
    (generateWithAPRV envAlwaysInvalid (.ok "sys")).error =
      some "The generated plan did not meet quality standards. Please try again with more specific requirements." ∧
    ((generateWithAPRV envAlwaysInvalid (.ok "sys")).phase_logs.all
      (fun l => !(jsIncludes l.details "Required field"))) = true ∧
    jsIncludes
      "The generated plan did not meet quality standards. Please try again with more specific requirements."
      "Required field" = false := by
  refine ⟨by decide, by decide, by decide, by decide⟩

/-- C1 (amended): with the orchestrator's default bound (three total
attempts) and a schema-validation step that reports at least one issue
on every generated plan, exactly 3 Generate phases occur, the terminal
result is a failure carrying the full attempt log and a user-facing
error message derived from the final schema-validation failure (not the
raw issue list), and the plan field is absent. -/
theorem c1_attempt_bound (env : APRVEnv) (sys : String)
    (H : ∀ i prompt, ∃ t pl, env.planCall i prompt = .ok t ∧
      extractJSON t = some pl ∧ (validateAgainstSchema pl env.required).valid = false) :
    (generateWithAPRV env (.ok sys)).success = false ∧
    (generateWithAPRV env (.ok sys)).plan = none ∧
    countPhase (generateWithAPRV env (.ok sys)).phase_logs "plan" = 3 ∧
    (generateWithAPRV env (.ok sys)).attempts = 3 ∧
    (∃ fmt, (generateWithAPRV env (.ok sys)).error =
      some (formatUserError ("Schema validation failed: " ++ fmt))) := by
  have logs₀ : List PhaseLog :=
    [{ phase := "analyze", status := "success", details := "System prompt loaded successfully" }]
  obtain ⟨e₁, l₁, heq₁, hc₁⟩ := loopAux_invalid_step env MAX_REPAIR_ATTEMPTS 2 0 none
    [{ phase := "analyze", status := "success", details := "System prompt loaded successfully" }]
    (by decide) (H 0)
  obtain ⟨e₂, l₂, heq₂, hc₂⟩ := loopAux_invalid_step env MAX_REPAIR_ATTEMPTS 1 1 (some e₁) l₁
    (by decide) (H 1)
  obtain ⟨fmt, l₃, heq₃, hc₃⟩ := loopAux_invalid_final env MAX_REPAIR_ATTEMPTS 0 2 (some e₂) l₂
    (by decide) (H 2)
  have hout : executeAPRVLoop env MAX_REPAIR_ATTEMPTS
      [{ phase := "analyze", status := "success", details := "System prompt loaded successfully" }] =
      { result := .error ("Schema validation failed: " ++ fmt), logs := l₃, attempts := 3 } := by
    show loopAux env MAX_REPAIR_ATTEMPTS 3 0 none _ = _
    rw [show (3 : Nat) = 2 + 1 from rfl, heq₁, show (2 : Nat) = 1 + 1 from rfl, heq₂,
      show (1 : Nat) = 0 + 1 from rfl, heq₃]
  have hcount : countPhase l₃ "plan" = 3 := by
    rw [hc₃, hc₂, hc₁]
    simp [countPhase]
  refine ⟨?_, ?_, ?_, ?_, fmt, ?_⟩ <;>
    simp [generateWithAPRV, hout, hcount]

/-- C1 witness: the concrete always-invalid environment performs
exactly 3 Generate phases and fails with no plan. -/
theorem c1_attempt_bound_witness :
    (generateWithAPRV envAlwaysInvalid (.ok "sys")).success = false ∧
    (generateWithAPRV envAlwaysInvalid (.ok "sys")).plan = none ∧
    countPhase (generateWithAPRV envAlwaysInvalid (.ok "sys")).phase_logs "plan" = 3 ∧
    (generateWithAPRV envAlwaysInvalid (.ok "sys")).attempts = 3 := by
  obtain ⟨h1, h2, h3, h4, _⟩ := c1_attempt_bound envAlwaysInvalid "sys"
    (fun i prompt => ⟨"\x7b\x7d", .obj [], rfl, rfl, rfl⟩)
  exact ⟨h1, h2, h3, h4⟩

/-- C9: a thrown reflection error is swallowed — the Reflect phase
reports no issues and an empty issue list — and a run whose every
reflection call throws still succeeds in one attempt when generation
and validation succeed, so a reflection failure never aborts the
orchestration and never by itself produces a terminal failure. -/
theorem c9_reflect_failure_swallowed :
    (∀ env attempt plan logs e,
      env.reflectCall attempt (buildReflectionPrompt env.intake plan) = .error e →
      (reflectPhase env attempt plan logs).1 = (false, [])) ∧
    (∀ env sys,
      (∀ i p, ∃ e, env.reflectCall i p = .error e) →
      (∀ i prompt, ∃ t pl, env.planCall i prompt = .ok t ∧ extractJSON t = some pl ∧
        (validateAgainstSchema pl env.required).valid = true) →
      (generateWithAPRV env (.ok sys)).success = true ∧
      (generateWithAPRV env (.ok sys)).attempts = 1) := by
  constructor
  · intro env attempt plan logs e h
    simp [reflectPhase, h]
  · intro env sys Hr Hp
    obtain ⟨t, pl, ht, hx, hv⟩ := Hp 0 (buildUserPrompt env.intake none)
    obtain ⟨e, he⟩ := Hr 0 (buildReflectionPrompt env.intake pl)
    have hloop : executeAPRVLoop env MAX_REPAIR_ATTEMPTS
        [{ phase := "analyze", status := "success",
           details := "System prompt loaded successfully" }] =
        { result := .ok pl,
          logs := [{ phase := "analyze", status := "success",
                     details := "System prompt loaded successfully" }] ++
            [{ phase := "analyze", status := "success",
               details := "Starting generation with Claude API" },
             { phase := "plan", status := "success", details := "Generated plan" },
             { phase := "reflect", status := "warning",
               details := "Reflection failed: " ++ e ++ ". Continuing..." },
             { phase := "verify", status := "success", details := "Schema validation passed" },
             { phase := "verify", status := "success", details := "Schema validation passed" }],
          attempts := 1 } := by
      show loopAux env MAX_REPAIR_ATTEMPTS 3 0 none _ = _
      simp [loopAux, analyzePlanPhase, reflectPhase, verifyPhase, ht, hx, he, hv]
    constructor <;> simp [generateWithAPRV, hloop]

/-- C9 witness: the concrete environment whose reflection calls all
throw succeeds on the first attempt. -/
theorem c9_reflect_failure_swallowed_witness :
    (generateWithAPRV envReflectThrows (.ok "sys")).success = true ∧
    (generateWithAPRV envReflectThrows (.ok "sys")).attempts = 1 :=
  c9_reflect_failure_swallowed.2 envReflectThrows "sys"
    (fun _ _ => ⟨"network reset", rfl⟩)
    (fun _ _ => ⟨validVerifyText,
      .obj [("weekly_plan", .arr [.num 1]), ("units", .arr [.num 1]),
            ("confidence_score", .num (mkRat 1 2))], rfl, rfl, rfl⟩)

set_option maxRecDepth 10000 in
/-- C10: the Reflect phase flags issues exactly when the lowercased
response contains "issue", "gap", "missing" or "incomplete"; the
reflection prompt itself instructs the model to answer "No issues
found." for a good plan, that exact answer is classified as having
issues, and with attempts remaining it triggers a second Generate phase
even though generation and validation always succeed. -/
theorem c10_reflection_keyword_trap :
    reflectHasIssues "No issues found." = true ∧
    (∀ env attempt plan logs resp,
      env.reflectCall attempt (buildReflectionPrompt env.intake plan) = .ok resp →
      ((reflectPhase env attempt plan logs).1.1 = true ↔
        (jsIncludes (jsToLower resp) "issue" = true ∨
         jsIncludes (jsToLower resp) "gap" = true ∨
         jsIncludes (jsToLower resp) "missing" = true ∨
         jsIncludes (jsToLower resp) "incomplete" = true))) ∧
    (∀ intake plan,
      jsIncludes (buildReflectionPrompt intake plan) "say \"No issues found.\"" = true) ∧
    (∀ env sys,
      (∀ i prompt, ∃ t pl, env.planCall i prompt = .ok t ∧ extractJSON t = some pl ∧
        (validateAgainstSchema pl env.required).valid = true) →
      (∀ p, env.reflectCall 0 p = .ok "No issues found.") →
      (∀ i p, 1 ≤ i → ∃ resp, env.reflectCall i p = .ok resp ∧ reflectHasIssues resp = false) →
      (generateWithAPRV env (.ok sys)).success = true ∧
      countPhase (generateWithAPRV env (.ok sys)).phase_logs "plan" = 2 ∧
      (generateWithAPRV env (.ok sys)).attempts = 2) := by
  refine ⟨by decide, ?_, ?_, ?_⟩
  · intro env attempt plan logs resp h
    simp [reflectPhase, h, reflectHasIssues, Bool.or_eq_true, or_assoc]
  · intro intake plan
    apply jsIncludes_append_right
    decide
  · intro env sys Hp Hr0 Hr1
    obtain ⟨t₀, pl₀, ht₀, hx₀, hv₀⟩ := Hp 0 (buildUserPrompt env.intake none)
    have hr₀ := Hr0 (buildReflectionPrompt env.intake pl₀)
    have hstep : loopAux env MAX_REPAIR_ATTEMPTS 3 0 none
        [{ phase := "analyze", status := "success",
           details := "System prompt loaded successfully" }] =
        loopAux env MAX_REPAIR_ATTEMPTS 2 1
          (some ("Reflection issues: " ++
            String.intercalate "; " [String.take "No issues found." 200]))
          ([{ phase := "analyze", status := "success",
              details := "System prompt loaded successfully" }] ++
           [{ phase := "analyze", status := "success",
              details := "Starting generation with Claude API" },
            { phase := "plan", status := "success", details := "Generated plan" },
            { phase := "reflect", status := "warning", details := "Issues found" },
            { phase := "reflect", status := "warning",
              details := "Issues identified: " ++
                String.intercalate ", " [String.take "No issues found." 200] }]) := by
      simp [loopAux, analyzePlanPhase, reflectPhase, MAX_REPAIR_ATTEMPTS, ht₀, hx₀, hr₀,
        show reflectHasIssues "No issues found." = true from by decide]
    obtain ⟨t₁, pl₁, ht₁, hx₁, hv₁⟩ := Hp 1 (buildUserPrompt env.intake
      (some ("Reflection issues: " ++
        String.intercalate "; " [String.take "No issues found." 200])))
    obtain ⟨resp₁, hr₁, hflat₁⟩ := Hr1 1 (buildReflectionPrompt env.intake pl₁) (by omega)
    have hfin := loopAux_success_now env MAX_REPAIR_ATTEMPTS 1 1
      (some ("Reflection issues: " ++
        String.intercalate "; " [String.take "No issues found." 200]))
      ([{ phase := "analyze", status := "success",
          details := "System prompt loaded successfully" }] ++
       [{ phase := "analyze", status := "success",
          details := "Starting generation with Claude API" },
        { phase := "plan", status := "success", details := "Generated plan" },
        { phase := "reflect", status := "warning", details := "Issues found" },
        { phase := "reflect", status := "warning",
          details := "Issues identified: " ++
            String.intercalate ", " [String.take "No issues found." 200] }])
      t₁ pl₁ resp₁ ht₁ hx₁ hr₁ hflat₁ hv₁
    have hloop : executeAPRVLoop env MAX_REPAIR_ATTEMPTS
        [{ phase := "analyze", status := "success",
           details := "System prompt loaded successfully" }] =
        loopAux env MAX_REPAIR_ATTEMPTS (1 + 1) 1
          (some ("Reflection issues: " ++
            String.intercalate "; " [String.take "No issues found." 200]))
          ([{ phase := "analyze", status := "success",
              details := "System prompt loaded successfully" }] ++
           [{ phase := "analyze", status := "success",
              details := "Starting generation with Claude API" },
            { phase := "plan", status := "success", details := "Generated plan" },
            { phase := "reflect", status := "warning", details := "Issues found" },
            { phase := "reflect", status := "warning",
              details := "Issues identified: " ++
                String.intercalate ", " [String.take "No issues found." 200] }]) := hstep
    rw [hfin] at hloop
    refine ⟨?_, ?_, ?_⟩ <;> simp [generateWithAPRV, hloop, countPhase_append, countPhase]

/-- C10 witness: the concrete environment answering "No issues found."
at the first reflection succeeds only after a second Generate phase. -/
theorem c10_reflection_keyword_trap_witness :
    (generateWithAPRV envReflectNoIssues (.ok "sys")).success = true ∧
    countPhase (generateWithAPRV envReflectNoIssues (.ok "sys")).phase_logs "plan" = 2 ∧
    (generateWithAPRV envReflectNoIssues (.ok "sys")).attempts = 2 :=
  c10_reflection_keyword_trap.2.2.2 envReflectNoIssues "sys"
    (fun _ _ => ⟨validVerifyText,
      .obj [("weekly_plan", .arr [.num 1]), ("units", .arr [.num 1]),
            ("confidence_score", .num (mkRat 1 2))], rfl, rfl, rfl⟩)
    (fun _ => rfl)
    (fun i p hi => ⟨"Great plan", by simp [envReflectNoIssues]; omega, by decide⟩)

end TAS
